import Mathlib

/-!
Shallow embedding of the ap-news-scraper pipeline (news + music variants).

The repository stores scraped items in a SQLite table and moves them through
a status pipeline: pending_review -> pending_translation -> translated ->
published, with rejected as a terminal state.  External collaborators
(the Puppeteer scraper, the Gemini review/translation API and the Telegram
publisher) are modelled as function parameters returning `Except Unit`
values: `Except.error` stands for a thrown exception.

The embedding mirrors:
  - src/unnamed/part_001 (utils/helpers.js): `generateHash` = hex MD5;
  - src/db/newsDatabase.js and src/db/MusicDatabase.js: the row schema and
    the SQL operations (insert, dynamic update, status update, status query,
    retention cleanup).  The dynamic `updates` object of `updateNewsItem` /
    `updateMusicItem` is embedded as a record of optional fields, one per
    column the call sites actually update (`none` = key absent from the
    update map);
  - src/unnamed/part_007 (services/newsService.js): the four news stages;
  - src/unnamed/part_008 (services/MusicService.js): the music stages;
  - src/services/telegram.js: `publishMusicToTelegram`'s fallback logic.

SQLite's `CURRENT_TIMESTAMP` is modelled by an explicit `now : Nat`
parameter; `ORDER BY created_at DESC` by a sort on the `created_at`
field (SQLite leaves the order of equal keys unspecified).
-/

/-! ### MD5 (crypto.createHash in utils/helpers.js generateHash)

A faithful executable MD5 over the UTF-8 bytes of the input string,
written with `Nat` arithmetic reduced modulo 2^32. -/

def w32 (n : Nat) : Nat := n % 4294967296

def add32 (a b : Nat) : Nat := (a + b) % 4294967296

def bnot32 (x : Nat) : Nat := 4294967295 - x % 4294967296

def rotl32 (x s : Nat) : Nat :=
  ((x <<< s) ||| (x >>> (32 - s))) % 4294967296

/-- Per-round left-rotation amounts of MD5. -/
def md5S : List Nat :=
  [7, 12, 17, 22, 7, 12, 17, 22, 7, 12, 17, 22, 7, 12, 17, 22,
   5, 9, 14, 20, 5, 9, 14, 20, 5, 9, 14, 20, 5, 9, 14, 20,
   4, 11, 16, 23, 4, 11, 16, 23, 4, 11, 16, 23, 4, 11, 16, 23,
   6, 10, 15, 21, 6, 10, 15, 21, 6, 10, 15, 21, 6, 10, 15, 21]

/-- The MD5 sine-derived constant table. -/
def md5K : List Nat :=
  [0xd76aa478, 0xe8c7b756, 0x242070db, 0xc1bdceee,
   0xf57c0faf, 0x4787c62a, 0xa8304613, 0xfd469501,
   0x698098d8, 0x8b44f7af, 0xffff5bb1, 0x895cd7be,
   0x6b901122, 0xfd987193, 0xa679438e, 0x49b40821,
   0xf61e2562, 0xc040b340, 0x265e5a51, 0xe9b6c7aa,
   0xd62f105d, 0x02441453, 0xd8a1e681, 0xe7d3fbc8,
   0x21e1cde6, 0xc33707d6, 0xf4d50d87, 0x455a14ed,
   0xa9e3e905, 0xfcefa3f8, 0x676f02d9, 0x8d2a4c8a,
   0xfffa3942, 0x8771f681, 0x6d9d6122, 0xfde5380c,
   0xa4beea44, 0x4bdecfa9, 0xf6bb4b60, 0xbebfbc70,
   0x289b7ec6, 0xeaa127fa, 0xd4ef3085, 0x04881d05,
   0xd9d4d039, 0xe6db99e5, 0x1fa27cf8, 0xc4ac5665,
   0xf4292244, 0x432aff97, 0xab9423a7, 0xfc93a039,
   0x655b59c3, 0x8f0ccc92, 0xffeff47d, 0x85845dd1,
   0x6fa87e4f, 0xfe2ce6e0, 0xa3014314, 0x4e0811a1,
   0xf7537e82, 0xbd3af235, 0x2ad7d2bb, 0xeb86d391]

/-- MD5 padding: append 0x80, zero bytes to 56 mod 64, then the bit length
as 8 little-endian bytes. -/
def md5Pad (msg : List Nat) : List Nat :=
  let len := msg.length
  let zeros := (120 - (len + 1) % 64) % 64
  let bitLen := 8 * len % 18446744073709551616
  msg ++ [128] ++ List.replicate zeros 0 ++
    ((List.range 8).map fun i => (bitLen >>> (8 * i)) % 256)

/-- Little-endian 32-bit word `j` of a 64-byte block. -/
def md5Word (block : List Nat) (j : Nat) : Nat :=
  block.getD (4 * j) 0 + 256 * block.getD (4 * j + 1) 0 +
    65536 * block.getD (4 * j + 2) 0 + 16777216 * block.getD (4 * j + 3) 0

/-- One of the 64 MD5 rounds on state (A, B, C, D). -/
def md5Round (block : List Nat) (st : Nat × Nat × Nat × Nat) (i : Nat) :
    Nat × Nat × Nat × Nat :=
  let (a, b, c, d) := st
  let fg : Nat × Nat :=
    if i < 16 then ((b &&& c) ||| (bnot32 b &&& d), i)
    else if i < 32 then ((d &&& b) ||| (bnot32 d &&& c), (5 * i + 1) % 16)
    else if i < 48 then (b ^^^ c ^^^ d, (3 * i + 5) % 16)
    else (c ^^^ (b ||| bnot32 d), (7 * i) % 16)
  let f := (fg.1 + a + md5K.getD i 0 + md5Word block fg.2) % 4294967296
  (d, add32 b (rotl32 f (md5S.getD i 0)), b, c)

/-- Process one 64-byte block, updating the running digest state. -/
def md5Block (st : Nat × Nat × Nat × Nat) (block : List Nat) :
    Nat × Nat × Nat × Nat :=
  let (a, b, c, d) := (List.range 64).foldl (md5Round block) st
  (add32 st.1 a, add32 st.2.1 b, add32 st.2.2.1 c, add32 st.2.2.2 d)

/-- Run MD5 over already padded input (length a multiple of 64). -/
def md5Core (padded : List Nat) : Nat × Nat × Nat × Nat :=
  (List.range (padded.length / 64)).foldl
    (fun st i => md5Block st ((padded.drop (64 * i)).take 64))
    (0x67452301, 0xefcdab89, 0x98badcfe, 0x10325476)

def hexChar (n : Nat) : Char :=
  "0123456789abcdef".toList.getD n '0'

/-- Two lowercase hex digits of a byte. -/
def byteHex (b : Nat) : List Char := [hexChar (b / 16), hexChar (b % 16)]

/-- A 32-bit word as 8 hex digits, little-endian byte order (MD5 output order). -/
def wordHexLE (w : Nat) : List Char :=
  byteHex (w % 256) ++ byteHex (w / 256 % 256) ++
    byteHex (w / 65536 % 256) ++ byteHex (w / 16777216 % 256)

/-- The hex MD5 digest of a byte sequence. -/
def md5Hex (msg : List Nat) : String :=
  let (a, b, c, d) := md5Core (md5Pad msg)
  String.mk (wordHexLE a ++ wordHexLE b ++ wordHexLE c ++ wordHexLE d)

/-- UTF-8 encoding of one character (Node's default string encoding for
`crypto.createHash(..).update(text)`). -/
def utf8Bytes (c : Char) : List Nat :=
  let n := c.toNat
  if n < 128 then [n]
  else if n < 2048 then [192 ||| n >>> 6, 128 ||| (n &&& 63)]
  else if n < 65536 then
    [224 ||| n >>> 12, 128 ||| (n >>> 6 &&& 63), 128 ||| (n &&& 63)]
  else
    [240 ||| n >>> 18, 128 ||| (n >>> 12 &&& 63), 128 ||| (n >>> 6 &&& 63),
     128 ||| (n &&& 63)]

/-- The UTF-8 byte sequence of a string. -/
def stringBytes (s : String) : List Nat :=
  s.data.foldr (fun c acc => utf8Bytes c ++ acc) []

/-- utils/helpers.js `generateHash`: hex MD5 of the UTF-8 bytes of `text`. -/
def generateHash (text : String) : String :=
  md5Hex (stringBytes text)

/-! ### Content filter and JS-truthiness helpers -/

/-- Does `hay` start with `needle`? -/
def startsWithChars : List Char → List Char → Bool
  | [], _ => true
  | _ :: _, [] => false
  | a :: as, b :: bs => a == b && startsWithChars as bs

/-- Substring occurrence, the semantics of JavaScript `text.includes(k)`. -/
def occursIn : List Char → List Char → Bool
  | needle, [] => startsWithChars needle []
  | needle, h :: t => startsWithChars needle (h :: t) || occursIn needle t

/-- services/newsService.js `containsKeyword`:
`keywords.some(keyword => text.includes(keyword))`. -/
def containsKeyword (text : String) (keywords : List String) : Bool :=
  keywords.any fun k => occursIn k.toList text.toList

/-- JavaScript truthiness of a nullable string column (`null`/`undefined`
and the empty string are falsy). -/
def jsTruthy : Option String → Bool
  | none => false
  | some s => !(s == "")

/-- Success test (`Except.ok`) of a collaborator call outcome. -/
def exceptOk {ε α : Type} : Except ε α → Bool
  | .ok _ => true
  | .error _ => false

/-! ### Data model (SQLite rows of news.db / music.db) -/

/-- The five lifecycle states of `StatusEnum` (identical in
newsDatabase.js and MusicDatabase.js). -/
inductive Status where
  | PENDING_REVIEW
  | PENDING_TRANSLATION
  | TRANSLATED
  | PUBLISHED
  | REJECTED
deriving DecidableEq, Repr

/-- A row of the `news` table.  Nullable columns are `Option`;
timestamps are abstract `Nat` ticks. -/
structure NewsItem where
  id : String
  title : String
  link : String
  source : String
  image_url : Option String := none
  content : Option String := none
  translated_title : Option String := none
  translated_content : Option String := none
  status : Status := .PENDING_REVIEW
  created_at : Nat := 0
  updated_at : Nat := 0
deriving DecidableEq, Repr

/-- A row of the `music` table. -/
structure MusicItem where
  id : String
  title : String
  artist : String
  link : String
  image_url : Option String := none
  mp3_url : Option String := none
  translated_title : Option String := none
  translated_artist : Option String := none
  status : Status := .PENDING_REVIEW
  created_at : Nat := 0
  updated_at : Nat := 0
deriving DecidableEq, Repr

/-! ### Generic row-store primitives (SELECT / UPDATE ... WHERE id = ?) -/

/-- The query `SELECT * FROM t WHERE id = ?` (first matching row). -/
def findRow {α : Type} (key : α → String) (id : String) : List α → Option α
  | [] => none
  | r :: rest => if key r = id then some r else findRow key id rest

/-- The statement `UPDATE t SET ... WHERE id = ?`: apply `g` to every row keyed `id`. -/
def updateRows {α : Type} (key : α → String) (id : String) (g : α → α)
    (db : List α) : List α :=
  db.map fun r => if key r = id then g r else r

/-- The clause `ORDER BY created_at DESC` (tie order among equal timestamps
is unspecified in SQLite; any sorted permutation is a faithful model). -/
def sortByCreatedDesc {α : Type} (created : α → Nat) (db : List α) : List α :=
  List.insertionSort (fun a b => created b ≤ created a) db

/-! ### newsDatabase.js operations -/

/-- A candidate item produced by the scraper (`{title, link, source}`);
`source` is nullable because `insertNewsItem` defends with
`newsItem.source || ''`. -/
structure RawNews where
  title : String
  link : String
  source : Option String := none
deriving DecidableEq, Repr

/-- newsDatabase.js `insertNewsItem`: id = md5(title + link); if a row
with that id exists, return its id without writing; else insert with
status `pending_review` and the current timestamp.  Returns the new
store and the id. -/
def insertNewsItem (item : RawNews) (now : Nat) (db : List NewsItem) :
    List NewsItem × String :=
  let id := generateHash (item.title ++ item.link)
  match findRow (fun r => r.id) id db with
  | some _ => (db, id)
  | none =>
      (db ++ [{ id := id, title := item.title, link := item.link,
                source := if jsTruthy item.source then item.source.getD "" else "",
                status := .PENDING_REVIEW,
                created_at := now, updated_at := now }], id)

/-- The dynamic `updates` object passed to `updateNewsItem`, restricted to
the columns its call sites actually name (`none` = key absent). -/
structure NewsUpdates where
  content : Option String := none
  image_url : Option String := none
  translated_title : Option String := none
  translated_content : Option String := none
  status : Option Status := none
deriving DecidableEq, Repr

/-- Merge the named fields into a row, always bumping `updated_at`
(the generated `UPDATE news SET f1 = ?, ..., updated_at =
CURRENT_TIMESTAMP WHERE id = ?`). -/
def applyNewsUpdates (u : NewsUpdates) (now : Nat) (r : NewsItem) : NewsItem :=
  { r with
    content := match u.content with | some c => some c | none => r.content
    image_url := match u.image_url with | some c => some c | none => r.image_url
    translated_title :=
      match u.translated_title with | some c => some c | none => r.translated_title
    translated_content :=
      match u.translated_content with | some c => some c | none => r.translated_content
    status := u.status.getD r.status
    updated_at := now }

/-- newsDatabase.js `updateNewsItem`.  The SQL UPDATE silently affects
zero rows when the id is absent — no error is raised. -/
def updateNewsItem (id : String) (u : NewsUpdates) (now : Nat)
    (db : List NewsItem) : List NewsItem :=
  updateRows (fun r => r.id) id (applyNewsUpdates u now) db

/-- newsDatabase.js `updateNewsStatus`:
`UPDATE news SET status = ?, updated_at = CURRENT_TIMESTAMP WHERE id = ?`. -/
def updateNewsStatus (id : String) (st : Status) (now : Nat)
    (db : List NewsItem) : List NewsItem :=
  updateRows (fun r => r.id) id
    (fun r => { r with status := st, updated_at := now }) db

/-- newsDatabase.js `getNewsByStatus`:
`SELECT * FROM news WHERE status = ? ORDER BY created_at DESC LIMIT ?`
(the callers rely on the default `limit = 100`). -/
def getNewsByStatus (st : Status) (limit : Nat) (db : List NewsItem) :
    List NewsItem :=
  (sortByCreatedDesc (fun r => r.created_at)
    (db.filter fun r => r.status == st)).take limit

/-- The status of the row keyed `id`, if present. -/
def newsStatusOf (id : String) (db : List NewsItem) : Option Status :=
  (findRow (fun r => r.id) id db).map fun r => r.status

/-! ### MusicDatabase.js operations -/

/-- A candidate music item (`{title, link, artist}`). -/
structure RawMusic where
  title : String
  link : String
  artist : String
deriving DecidableEq, Repr

/-- MusicDatabase.js `insertMusicItem`: same dedup lookup as the news
variant, but the initial status is `pending_translation` (the music
pipeline has no review stage). -/
def insertMusicItem (item : RawMusic) (now : Nat) (db : List MusicItem) :
    List MusicItem × String :=
  let id := generateHash (item.title ++ item.link)
  match findRow (fun r => r.id) id db with
  | some _ => (db, id)
  | none =>
      (db ++ [{ id := id, title := item.title, link := item.link,
                artist := item.artist,
                status := .PENDING_TRANSLATION,
                created_at := now, updated_at := now }], id)

/-- The dynamic `updates` object passed to `updateMusicItem`, restricted
to the columns its call sites actually name. -/
structure MusicUpdates where
  mp3_url : Option String := none
  image_url : Option String := none
  translated_title : Option String := none
  translated_artist : Option String := none
  status : Option Status := none
deriving DecidableEq, Repr

/-- Merge the named fields into a music row, bumping `updated_at`. -/
def applyMusicUpdates (u : MusicUpdates) (now : Nat) (r : MusicItem) :
    MusicItem :=
  { r with
    mp3_url := match u.mp3_url with | some c => some c | none => r.mp3_url
    image_url := match u.image_url with | some c => some c | none => r.image_url
    translated_title :=
      match u.translated_title with | some c => some c | none => r.translated_title
    translated_artist :=
      match u.translated_artist with | some c => some c | none => r.translated_artist
    status := u.status.getD r.status
    updated_at := now }

/-- MusicDatabase.js `updateMusicItem`. -/
def updateMusicItem (id : String) (u : MusicUpdates) (now : Nat)
    (db : List MusicItem) : List MusicItem :=
  updateRows (fun r => r.id) id (applyMusicUpdates u now) db

/-- MusicDatabase.js `updateMusicStatus`. -/
def updateMusicStatus (id : String) (st : Status) (now : Nat)
    (db : List MusicItem) : List MusicItem :=
  updateRows (fun r => r.id) id
    (fun r => { r with status := st, updated_at := now }) db

/-- MusicDatabase.js `getMusicByStatus` (callers use the default
`limit = 100`). -/
def getMusicByStatus (st : Status) (limit : Nat) (db : List MusicItem) :
    List MusicItem :=
  (sortByCreatedDesc (fun r => r.created_at)
    (db.filter fun r => r.status == st)).take limit

/-- The status of the music row keyed `id`, if present. -/
def musicStatusOf (id : String) (db : List MusicItem) : Option Status :=
  (findRow (fun r => r.id) id db).map fun r => r.status

/-- MusicDatabase.js `cleanupOldRecords`: take the `created_at` of the
10,000th newest row (`ORDER BY created_at DESC LIMIT 1 OFFSET 9999`);
if there is none, do nothing and return 0; otherwise
`DELETE FROM music WHERE created_at < ?` and return sqlite's `changes`
(the number of deleted rows).  Returns the new store and the count. -/
def cleanupOldRecords (db : List MusicItem) : List MusicItem × Nat :=
  match (sortByCreatedDesc (fun r => r.created_at) db).get? 9999 with
  | none => (db, 0)
  | some r =>
      ((db.filter fun x => !(decide (x.created_at < r.created_at))),
       (db.filter fun x => decide (x.created_at < r.created_at)).length)

/-! ### News pipeline stages (services/newsService.js, src/unnamed/part_007)

Collaborators are parameters: `Except.error ()` models a thrown
exception (network failure, CloudFlare timeout, malformed Gemini JSON). -/

/-- One entry of the batch sent to Gemini for review: pending items are
sent as `{id, title}`, recently published ones as `{title}` only
(`id := none`). -/
structure ReviewEntry where
  id : Option String
  title : String
deriving DecidableEq, Repr

/-- The argument `[...simplifiedNewsPublished, ...simplifiedNews]` that
`processPendingNews` passes to `reviewNews`. -/
def newsReviewArg (db : List NewsItem) : List ReviewEntry :=
  (getNewsByStatus .PUBLISHED 100 db).map
      (fun n => { id := none, title := n.title }) ++
    (getNewsByStatus .PENDING_REVIEW 100 db).map
      (fun n => { id := some n.id, title := n.title })

/-- services/newsService.js `processPendingNews` (the review stage).
`reviewFn` is the Gemini collaborator returning the accepted ids; a
collaborator failure is re-thrown before any status is written.  Returns
the store and the surfaced outcome. -/
def processPendingNews
    (reviewFn : List ReviewEntry → Except Unit (List String)) (now : Nat)
    (db : List NewsItem) : List NewsItem × Except Unit Unit :=
  let pending := getNewsByStatus .PENDING_REVIEW 100 db
  if pending.isEmpty then (db, .ok ())
  else
    match reviewFn (newsReviewArg db) with
    | .error e => (db, .error e)
    | .ok accepted =>
        (pending.foldl
          (fun acc news =>
            updateNewsStatus news.id
              (if accepted.contains news.id then .PENDING_TRANSLATION
               else .REJECTED) now acc)
          db, .ok ())

/-- The `{image_url, content}` record returned by
`scrapeArticleContent` for a news article. -/
structure ArticleContent where
  content : String
  image_url : String
deriving DecidableEq, Repr

/-- The `{translatedTitle, translatedContent}` record returned by
`translateArticle`. -/
structure NewsTranslation where
  translatedTitle : String
  translatedContent : String
deriving DecidableEq, Repr

/-- The body of the per-item `try` block of `processTranslationNews`:
(a) keyword filter on raw title/body, (b) fetch-and-persist missing
content, (c) translate, (d) keyword filter on the translation deciding
TRANSLATED vs REJECTED.  An `Except.error` from a collaborator is caught
by the per-item handler, leaving the item's status unchanged. -/
def processOneNews (fetchFn : String → Except Unit ArticleContent)
    (translateFn : String → Option String → Except Unit NewsTranslation)
    (filters : List String) (now : Nat)
    (db : List NewsItem) (news : NewsItem) : List NewsItem :=
  if containsKeyword news.title filters ||
      (jsTruthy news.content && containsKeyword (news.content.getD "") filters) then
    updateNewsStatus news.id .REJECTED now db
  else
    let enriched : Except Unit (List NewsItem × NewsItem) :=
      if !(jsTruthy news.content) then
        match fetchFn news.link with
        | .error e => .error e
        | .ok art =>
            .ok (updateNewsItem news.id
                   { content := some art.content,
                     image_url := some art.image_url } now db,
                 { news with content := some art.content,
                             image_url := some art.image_url })
      else .ok (db, news)
    match enriched with
    | .error _ => db
    | .ok (db1, n1) =>
        match translateFn n1.title n1.content with
        | .error _ => db1
        | .ok tr =>
            updateNewsItem news.id
              { content := n1.content,
                translated_title := some tr.translatedTitle,
                translated_content := some tr.translatedContent,
                status := some
                  (if containsKeyword tr.translatedTitle filters ||
                      containsKeyword tr.translatedContent filters
                   then .REJECTED else .TRANSLATED) } now db1

/-- services/newsService.js `processTranslationNews`: iterate the
PENDING_TRANSLATION batch, isolating failures per item. -/
def processTranslationNews (fetchFn : String → Except Unit ArticleContent)
    (translateFn : String → Option String → Except Unit NewsTranslation)
    (filters : List String) (now : Nat) (db : List NewsItem) :
    List NewsItem :=
  (getNewsByStatus .PENDING_TRANSLATION 100 db).foldl
    (processOneNews fetchFn translateFn filters now) db

/-- services/newsService.js `publishNews`: publish each TRANSLATED item;
on success set PUBLISHED, on failure log and leave the status unchanged. -/
def publishNews (publishFn : NewsItem → Except Unit Unit) (now : Nat)
    (db : List NewsItem) : List NewsItem :=
  (getNewsByStatus .TRANSLATED 100 db).foldl
    (fun acc news =>
      match publishFn news with
      | .ok _ => updateNewsStatus news.id .PUBLISHED now acc
      | .error _ => acc)
    db

/-- services/newsService.js `scrapeAndStoreNews` (the ingest stage): each
source either fails (caught and skipped) or yields candidate items that
are inserted one by one. -/
def scrapeAndStoreNews (sources : List (Except Unit (List RawNews)))
    (now : Nat) (db : List NewsItem) : List NewsItem :=
  sources.foldl
    (fun acc src =>
      match src with
      | .error _ => acc
      | .ok items => items.foldl (fun a it => (insertNewsItem it now a).1) acc)
    db

/-! ### Music pipeline stages (services/MusicService.js, src/unnamed/part_008) -/

/-- The `{image_url, mp3_url}` record returned by the music variant of
`scrapeArticleContent`. -/
structure MusicContent where
  mp3_url : String
  image_url : String
deriving DecidableEq, Repr

/-- The `{translatedTitle, translatedArtist}` record returned by
`translateArticle` for a music item. -/
structure MusicTranslation where
  translatedTitle : String
  translatedArtist : String
deriving DecidableEq, Repr

/-- The body of the per-item `try` block of `processTranslationMusic`.
Note: unlike the news variant, no keyword filter is applied anywhere,
and a successful translation always sets status TRANSLATED. -/
def processOneMusic (fetchFn : String → Except Unit MusicContent)
    (translateFn : MusicItem → Except Unit MusicTranslation) (now : Nat)
    (db : List MusicItem) (music : MusicItem) : List MusicItem :=
  let enriched : Except Unit (List MusicItem × MusicItem) :=
    if !(jsTruthy music.mp3_url) then
      match fetchFn music.link with
      | .error e => .error e
      | .ok art =>
          .ok (updateMusicItem music.id
                 { mp3_url := some art.mp3_url,
                   image_url := some art.image_url } now db,
               { music with mp3_url := some art.mp3_url,
                            image_url := some art.image_url })
    else .ok (db, music)
  match enriched with
  | .error _ => db
  | .ok (db1, m1) =>
      match translateFn m1 with
      | .error _ => db1
      | .ok tr =>
          updateMusicItem music.id
            { mp3_url := m1.mp3_url,
              translated_title := some tr.translatedTitle,
              translated_artist := some tr.translatedArtist,
              status := some .TRANSLATED } now db1

/-- services/MusicService.js `processTranslationMusic`. -/
def processTranslationMusic (fetchFn : String → Except Unit MusicContent)
    (translateFn : MusicItem → Except Unit MusicTranslation) (now : Nat)
    (db : List MusicItem) : List MusicItem :=
  (getMusicByStatus .PENDING_TRANSLATION 100 db).foldl
    (processOneMusic fetchFn translateFn now) db

/-- The `{success, photoSent, audioSent, musicId}` result of
`publishMusicToTelegram` (the id field is omitted). -/
structure PublishOutcome where
  success : Bool
  photoSent : Bool
  audioSent : Bool
deriving DecidableEq, Repr

/-- services/telegram.js `publishMusicToTelegram`: try the photo send and
the audio send, each only when its URL is truthy and each with its
failure caught; if neither succeeded, send a plain-text fallback message
(whose failure is NOT caught and is re-thrown); otherwise / on fallback
success report `success := true`. -/
def publishMusicToTelegram (photoRes audioRes textRes : Except Unit Unit)
    (music : MusicItem) : Except Unit PublishOutcome :=
  let photoSent := jsTruthy music.image_url && exceptOk photoRes
  let audioSent := jsTruthy music.mp3_url && exceptOk audioRes
  if !photoSent && !audioSent then
    match textRes with
    | .error e => .error e
    | .ok _ => .ok { success := true, photoSent := photoSent, audioSent := audioSent }
  else .ok { success := true, photoSent := photoSent, audioSent := audioSent }

/-- services/MusicService.js `publishMusic`: publish each TRANSLATED
music item; on success set PUBLISHED, on failure leave the status
unchanged. -/
def publishMusic (publishFn : MusicItem → Except Unit PublishOutcome)
    (now : Nat) (db : List MusicItem) : List MusicItem :=
  (getMusicByStatus .TRANSLATED 100 db).foldl
    (fun acc m =>
      match publishFn m with
      | .ok _ => updateMusicStatus m.id .PUBLISHED now acc
      | .error _ => acc)
    db

/-- services/MusicService.js `scrapeAndStoreMusic` (ingest). -/
def scrapeAndStoreMusic (sources : List (Except Unit (List RawMusic)))
    (now : Nat) (db : List MusicItem) : List MusicItem :=
  sources.foldl
    (fun acc src =>
      match src with
      | .error _ => acc
      | .ok items => items.foldl (fun a it => (insertMusicItem it now a).1) acc)
    db

/-! ### Stage runs and the status transition graph (spec section 4.4) -/

/-- A single invocation of one news pipeline stage, with its collaborator
behaviour and clock. -/
inductive NewsStage where
  | ingest (sources : List (Except Unit (List RawNews))) (now : Nat)
  | review (reviewFn : List ReviewEntry → Except Unit (List String)) (now : Nat)
  | translate (fetchFn : String → Except Unit ArticleContent)
      (translateFn : String → Option String → Except Unit NewsTranslation)
      (filters : List String) (now : Nat)
  | publish (publishFn : NewsItem → Except Unit Unit) (now : Nat)

/-- Run one news stage against the store. -/
def runNewsStage : NewsStage → List NewsItem → List NewsItem
  | .ingest ss now, db => scrapeAndStoreNews ss now db
  | .review f now, db => (processPendingNews f now db).1
  | .translate f t fl now, db => processTranslationNews f t fl now db
  | .publish p now, db => publishNews p now db

/-- A single invocation of one music pipeline stage. -/
inductive MusicStage where
  | ingest (sources : List (Except Unit (List RawMusic))) (now : Nat)
  | translate (fetchFn : String → Except Unit MusicContent)
      (translateFn : MusicItem → Except Unit MusicTranslation) (now : Nat)
  | publish (publishFn : MusicItem → Except Unit PublishOutcome) (now : Nat)

/-- Run one music stage against the store. -/
def runMusicStage : MusicStage → List MusicItem → List MusicItem
  | .ingest ss now, db => scrapeAndStoreMusic ss now db
  | .translate f t now, db => processTranslationMusic f t now db
  | .publish p now, db => publishMusic p now db

/-- The allowed single-run status evolution: stay put, advance one edge
of PENDING_REVIEW -> PENDING_TRANSLATION -> TRANSLATED -> PUBLISHED, or
drop to REJECTED from PENDING_REVIEW / PENDING_TRANSLATION. -/
def statusStepOK : Status → Status → Bool
  | .PENDING_REVIEW, .PENDING_TRANSLATION => true
  | .PENDING_TRANSLATION, .TRANSLATED => true
  | .TRANSLATED, .PUBLISHED => true
  | .PENDING_REVIEW, .REJECTED => true
  | .PENDING_TRANSLATION, .REJECTED => true
  | a, b => a == b

/-- Allowed evolution of a row's (possibly absent) status across one
stage run: a row may appear, but never disappear or step backwards. -/
def statusEvolves : Option Status → Option Status → Bool
  | none, _ => true
  | some _, none => false
  | some a, some b => statusStepOK a b

/-! ### Per-item outcome of the translate stages -/

/-- The enrichment step (b) of `processOneNews` seen on the in-memory
item: fetch the article content when the stored body is falsy. -/
def enrichNews (fetchFn : String → Except Unit ArticleContent)
    (news : NewsItem) : Except Unit NewsItem :=
  if !(jsTruthy news.content) then
    match fetchFn news.link with
    | .error e => .error e
    | .ok art =>
        .ok { news with content := some art.content,
                        image_url := some art.image_url }
  else .ok news

/-- The status `processOneNews` assigns to its item: `none` means a
collaborator exception was caught and the status is left unchanged. -/
def newsTranslateOutcome (fetchFn : String → Except Unit ArticleContent)
    (translateFn : String → Option String → Except Unit NewsTranslation)
    (filters : List String) (news : NewsItem) : Option Status :=
  if containsKeyword news.title filters ||
      (jsTruthy news.content && containsKeyword (news.content.getD "") filters) then
    some .REJECTED
  else
    match enrichNews fetchFn news with
    | .error _ => none
    | .ok n1 =>
        match translateFn n1.title n1.content with
        | .error _ => none
        | .ok tr =>
            some (if containsKeyword tr.translatedTitle filters ||
                     containsKeyword tr.translatedContent filters
                  then .REJECTED else .TRANSLATED)

/-- The enrichment step of `processOneMusic` on the in-memory item. -/
def enrichMusic (fetchFn : String → Except Unit MusicContent)
    (music : MusicItem) : Except Unit MusicItem :=
  if !(jsTruthy music.mp3_url) then
    match fetchFn music.link with
    | .error e => .error e
    | .ok art =>
        .ok { music with mp3_url := some art.mp3_url,
                         image_url := some art.image_url }
  else .ok music

/-- The status `processOneMusic` assigns to its item (`none` = caught
exception, status unchanged); a successful run always yields TRANSLATED. -/
def musicTranslateOutcome (fetchFn : String → Except Unit MusicContent)
    (translateFn : MusicItem → Except Unit MusicTranslation)
    (music : MusicItem) : Option Status :=
  match enrichMusic fetchFn music with
  | .error _ => none
  | .ok m1 =>
      match translateFn m1 with
      | .error _ => none
      | .ok _ => some .TRANSLATED

/-! ### Spec-side models (for refinement comparison only) -/

/-- The spec's `fingerprint(title, link) -> id` contract, which the code
realises as `generateHash(newsItem.title + newsItem.link)`. -/
def fingerprint (title link : String) : String :=
  generateHash (title ++ link)

/-- Modelled from the spec (section 4.2, `updateFields`): "merges named
fields into the row, always also bumping updatedAt; fails with NotFound
if id absent".  Stated only to compare against the source's
`updateNewsItem`, which raises no such error. -/
def updateFieldsSpec (id : String) (u : NewsUpdates) (now : Nat)
    (db : List NewsItem) : Except Unit (List NewsItem) :=
  match findRow (fun r => r.id) id db with
  | none => .error ()
  | some _ => .ok (updateNewsItem id u now db)

/-! ## Lemmas: generic row-store reasoning -/

set_option maxRecDepth 10000 in
/-- MD5 test vector: the digest of the empty message. -/
theorem md5Hex_empty_vector :
    md5Hex [] = "d41d8cd98f00b204e9800998ecf8427e" := by decide

set_option maxRecDepth 10000 in
/-- MD5 test vector: `generateHash` on the string "abc" matches
`crypto.createHash('md5')`. -/
theorem generateHash_abc_vector :
    generateHash "abc" = "900150983cd24fb0d6963f7d28e17f72" := by decide

theorem findRow_nil {α : Type} (key : α → String) (x : String) :
    findRow key x ([] : List α) = none := rfl

theorem findRow_cons {α : Type} (key : α → String) (x : String) (r : α)
    (rest : List α) :
    findRow key x (r :: rest) =
      if key r = x then some r else findRow key x rest := rfl

theorem findRow_updateRows {α : Type} (key : α → String) (x id : String)
    (g : α → α) (hg : ∀ r, key (g r) = key r) (db : List α) :
    findRow key x (updateRows key id g db) =
      if x = id then (findRow key id db).map g else findRow key x db := by
  induction db with
  | nil =>
      simp only [updateRows, List.map_nil, findRow_nil]
      split <;> rfl
  | cons r rest ih =>
      simp only [updateRows, List.map_cons] at *
      by_cases hri : key r = id
      · rw [if_pos hri]
        by_cases hxi : x = id
        · subst hxi
          rw [if_pos rfl] at ih ⊢
          rw [findRow_cons, findRow_cons, if_pos (hg r |>.trans hri),
            if_pos hri, Option.map_some']
        · rw [if_neg hxi] at ih ⊢
          rw [findRow_cons, if_neg (fun h => hxi ((hg r |>.trans hri) ▸ h).symm ),
            findRow_cons, if_neg (fun h => hxi (hri ▸ h).symm), ih]
      · rw [if_neg hri]
        by_cases hxi : x = id
        · subst hxi
          rw [if_pos rfl] at ih ⊢
          rw [findRow_cons, findRow_cons, if_neg hri, if_neg hri, ih]
        · rw [if_neg hxi] at ih ⊢
          rw [findRow_cons, findRow_cons]
          by_cases hrx : key r = x
          · rw [if_pos hrx, if_pos hrx]
          · rw [if_neg hrx, if_neg hrx, ih]

theorem findRow_updateRows_ne {α : Type} (key : α → String) (x id : String)
    (g : α → α) (hg : ∀ r, key (g r) = key r) (db : List α) (hx : x ≠ id) :
    findRow key x (updateRows key id g db) = findRow key x db := by
  rw [findRow_updateRows key x id g hg db, if_neg hx]

theorem findRow_updateRows_self {α : Type} (key : α → String) (id : String)
    (g : α → α) (hg : ∀ r, key (g r) = key r) (db : List α) :
    findRow key id (updateRows key id g db) = (findRow key id db).map g := by
  rw [findRow_updateRows key id id g hg db, if_pos rfl]

theorem findRow_append_left {α : Type} (key : α → String) (x : String)
    (db l2 : List α) (a : α) (h : findRow key x db = some a) :
    findRow key x (db ++ l2) = some a := by
  induction db with
  | nil => rw [findRow_nil] at h; cases h
  | cons r rest ih =>
      rw [List.cons_append]
      rw [findRow_cons] at h ⊢
      by_cases hrx : key r = x
      · rwa [if_pos hrx] at h ⊢
      · rw [if_neg hrx] at h ⊢
        exact ih h

theorem findRow_eq_of_mem {α : Type} (key : α → String) (db : List α)
    (hnodup : (db.map key).Nodup) (it : α) (hmem : it ∈ db) :
    findRow key (key it) db = some it := by
  induction db with
  | nil => cases hmem
  | cons r rest ih =>
      rw [List.map_cons, List.nodup_cons] at hnodup
      rw [findRow_cons]
      by_cases hr : key r = key it
      · rcases List.mem_cons.mp hmem with heq | hmem2
        · rw [heq, if_pos rfl]
        · exact absurd (hr ▸ List.mem_map_of_mem key hmem2) hnodup.1
      · rw [if_neg hr]
        rcases List.mem_cons.mp hmem with heq | hmem2
        · exact absurd (heq ▸ rfl) hr
        · exact ih hnodup.2 hmem2

theorem foldl_findRow_ne {α β : Type} (key : α → String) (bid : β → String)
    (step : List α → β → List α)
    (Hframe : ∀ db it x, x ≠ bid it →
      findRow key x (step db it) = findRow key x db)
    (batch : List β) (db : List α) (x : String)
    (hx : ∀ it ∈ batch, x ≠ bid it) :
    findRow key x (batch.foldl step db) = findRow key x db := by
  induction batch generalizing db with
  | nil => rfl
  | cons it rest ih =>
      rw [List.foldl_cons,
        ih (step db it) (fun j hj => hx j (List.mem_cons_of_mem _ hj)),
        Hframe db it x (hx it (List.mem_cons_self _ _))]

theorem foldl_findRow_mem {α β : Type} (key : α → String) (bid : β → String)
    (step : List α → β → List α)
    (Hframe : ∀ db it x, x ≠ bid it →
      findRow key x (step db it) = findRow key x db)
    (batch : List β) (db : List α) (it : β)
    (hmem : it ∈ batch) (hnodup : (batch.map bid).Nodup) :
    ∃ db2, findRow key (bid it) (batch.foldl step db) =
        findRow key (bid it) (step db2 it) ∧
      findRow key (bid it) db2 = findRow key (bid it) db := by
  induction batch generalizing db with
  | nil => cases hmem
  | cons hd rest ih =>
      rw [List.map_cons, List.nodup_cons] at hnodup
      rcases List.mem_cons.mp hmem with heq | hmem2
      · subst heq
        refine ⟨db, ?_, rfl⟩
        rw [List.foldl_cons]
        exact foldl_findRow_ne key bid step Hframe rest (step db it) (bid it)
          (fun j hj h => hnodup.1 (h ▸ List.mem_map_of_mem bid hj))
      · obtain ⟨db2, h1, h2⟩ := ih (step db hd) hmem2 hnodup.2
        refine ⟨db2, by rw [List.foldl_cons]; exact h1, ?_⟩
        rw [h2]
        exact Hframe db hd (bid it)
          (fun h => hnodup.1 (h ▸ List.mem_map_of_mem bid hmem2))

theorem mem_sortFilterTake {α : Type} (created : α → Nat) (p : α → Bool)
    (lim : Nat) (db : List α) (it : α)
    (h : it ∈ (sortByCreatedDesc created (db.filter p)).take lim) :
    it ∈ db ∧ p it = true := by
  have h1 : it ∈ sortByCreatedDesc created (db.filter p) :=
    (List.take_sublist lim _).subset h
  have h2 : it ∈ db.filter p := by
    unfold sortByCreatedDesc at h1
    exact (List.perm_insertionSort (fun a b => created b ≤ created a)
      (db.filter p)).subset h1
  exact ⟨(List.mem_filter.mp h2).1, (List.mem_filter.mp h2).2⟩

theorem nodup_map_sortFilterTake {α : Type} (key : α → String)
    (created : α → Nat) (p : α → Bool) (lim : Nat) (db : List α)
    (hnodup : (db.map key).Nodup) :
    (((sortByCreatedDesc created (db.filter p)).take lim).map key).Nodup := by
  have hsorted : ((sortByCreatedDesc created (db.filter p)).map key).Nodup := by
    have hperm : ((sortByCreatedDesc created (db.filter p)).map key).Perm
        ((db.filter p).map key) := by
      unfold sortByCreatedDesc
      exact (List.perm_insertionSort (fun a b => created b ≤ created a)
        (db.filter p)).map key
    have hfil : ((db.filter p).map key).Nodup :=
      ((List.filter_sublist db).map key).nodup hnodup
    exact hperm.nodup_iff.mpr hfil
  exact (((List.take_sublist lim _).map key)).nodup hsorted

theorem foldl_preserves {α β : Type} (key : α → String)
    (step : List α → β → List α)
    (H : ∀ db it x a, findRow key x db = some a →
      findRow key x (step db it) = some a)
    (l : List β) (db : List α) (x : String) (a : α)
    (h : findRow key x db = some a) :
    findRow key x (l.foldl step db) = some a := by
  induction l generalizing db with
  | nil => exact h
  | cons hd rest ih => exact ih (step db hd) (H db hd x a h)

theorem findRow_append_none {α : Type} (key : α → String) (x : String)
    (db l2 : List α) (h : findRow key x db = none) :
    findRow key x (db ++ l2) = findRow key x l2 := by
  induction db with
  | nil => rfl
  | cons r rest ih =>
      rw [findRow_cons] at h
      rw [List.cons_append, findRow_cons]
      by_cases hrx : key r = x
      · rw [if_pos hrx] at h; cases h
      · rw [if_neg hrx] at h ⊢
        exact ih h

theorem updateRows_not_found {α : Type} (key : α → String) (id : String)
    (g : α → α) (db : List α) (h : findRow key id db = none) :
    updateRows key id g db = db := by
  induction db with
  | nil => rfl
  | cons r rest ih =>
      rw [findRow_cons] at h
      by_cases hri : key r = id
      · rw [if_pos hri] at h; cases h
      · rw [if_neg hri] at h
        simp only [updateRows, List.map_cons] at *
        rw [if_neg hri, ih h]

theorem statusStepOK_refl (a : Status) : statusStepOK a a = true := by
  cases a <;> rfl

theorem statusEvolves_none (o : Option Status) : statusEvolves none o = true := by
  cases o <;> rfl

theorem statusEvolves_refl (o : Option Status) : statusEvolves o o = true := by
  cases o with
  | none => rfl
  | some a => exact statusStepOK_refl a

/-- One generic engine: if every iteration of a fold over a batch of rows
only touches its own row, and the touched row's status evolves legally,
then every row's status evolves legally across the whole fold. -/
theorem foldl_statusEvolves {α : Type} (key : α → String)
    (statusOf : α → Status) (step : List α → α → List α)
    (batch db : List α)
    (Hframe : ∀ db2 it x, x ≠ key it →
      findRow key x (step db2 it) = findRow key x db2)
    (hnodupb : (batch.map key).Nodup)
    (hnodupd : (db.map key).Nodup)
    (hbatchmem : ∀ it ∈ batch, it ∈ db)
    (Hstep : ∀ db2 it, it ∈ batch → findRow key (key it) db2 = some it →
      statusEvolves (some (statusOf it))
        ((findRow key (key it) (step db2 it)).map statusOf) = true)
    (x : String) :
    statusEvolves ((findRow key x db).map statusOf)
      ((findRow key x (batch.foldl step db)).map statusOf) = true := by
  by_cases hx : ∃ it ∈ batch, key it = x
  · obtain ⟨it, hit, hkey⟩ := hx
    subst hkey
    obtain ⟨db2, h1, h2⟩ :=
      foldl_findRow_mem key key step Hframe batch db it hit hnodupb
    have hdb : findRow key (key it) db = some it :=
      findRow_eq_of_mem key db hnodupd it (hbatchmem it hit)
    rw [hdb, h1, Option.map_some']
    exact Hstep db2 it hit (h2.trans hdb)
  · push_neg at hx
    rw [foldl_findRow_ne key key step Hframe batch db x
      (fun it hit h => hx it hit h.symm)]
    exact statusEvolves_refl _

/-! ## Lemmas: the news stages -/

theorem applyNewsUpdates_status (u : NewsUpdates) (now : Nat) (r : NewsItem) :
    (applyNewsUpdates u now r).status = u.status.getD r.status := rfl

theorem applyMusicUpdates_status (u : MusicUpdates) (now : Nat)
    (r : MusicItem) :
    (applyMusicUpdates u now r).status = u.status.getD r.status := rfl

theorem findRow_updateNewsStatus_ne (x id : String) (st : Status) (now : Nat)
    (db : List NewsItem) (hx : x ≠ id) :
    findRow (fun r => r.id) x (updateNewsStatus id st now db) =
      findRow (fun r => r.id) x db := by
  unfold updateNewsStatus
  exact findRow_updateRows_ne (fun r => NewsItem.id r) x id
    (fun r => { r with status := st, updated_at := now }) (fun _ => rfl) db hx

theorem findRow_updateNewsStatus_self (id : String) (st : Status) (now : Nat)
    (db : List NewsItem) :
    findRow (fun r => r.id) id (updateNewsStatus id st now db) =
      (findRow (fun r => r.id) id db).map
        (fun r => { r with status := st, updated_at := now }) := by
  unfold updateNewsStatus
  exact findRow_updateRows_self (fun r => NewsItem.id r) id
    (fun r => { r with status := st, updated_at := now }) (fun _ => rfl) db

theorem findRow_updateNewsItem_ne (x id : String) (u : NewsUpdates) (now : Nat)
    (db : List NewsItem) (hx : x ≠ id) :
    findRow (fun r => r.id) x (updateNewsItem id u now db) =
      findRow (fun r => r.id) x db := by
  unfold updateNewsItem
  exact findRow_updateRows_ne (fun r => NewsItem.id r) x id
    (applyNewsUpdates u now) (fun _ => rfl) db hx

theorem findRow_updateNewsItem_self (id : String) (u : NewsUpdates) (now : Nat)
    (db : List NewsItem) :
    findRow (fun r => r.id) id (updateNewsItem id u now db) =
      (findRow (fun r => r.id) id db).map (applyNewsUpdates u now) := by
  unfold updateNewsItem
  exact findRow_updateRows_self (fun r => NewsItem.id r) id
    (applyNewsUpdates u now) (fun _ => rfl) db

theorem findRow_updateMusicStatus_ne (x id : String) (st : Status) (now : Nat)
    (db : List MusicItem) (hx : x ≠ id) :
    findRow (fun r => r.id) x (updateMusicStatus id st now db) =
      findRow (fun r => r.id) x db := by
  unfold updateMusicStatus
  exact findRow_updateRows_ne (fun r => MusicItem.id r) x id
    (fun r => { r with status := st, updated_at := now }) (fun _ => rfl) db hx

theorem findRow_updateMusicStatus_self (id : String) (st : Status) (now : Nat)
    (db : List MusicItem) :
    findRow (fun r => r.id) id (updateMusicStatus id st now db) =
      (findRow (fun r => r.id) id db).map
        (fun r => { r with status := st, updated_at := now }) := by
  unfold updateMusicStatus
  exact findRow_updateRows_self (fun r => MusicItem.id r) id
    (fun r => { r with status := st, updated_at := now }) (fun _ => rfl) db

theorem findRow_updateMusicItem_ne (x id : String) (u : MusicUpdates)
    (now : Nat) (db : List MusicItem) (hx : x ≠ id) :
    findRow (fun r => r.id) x (updateMusicItem id u now db) =
      findRow (fun r => r.id) x db := by
  unfold updateMusicItem
  exact findRow_updateRows_ne (fun r => MusicItem.id r) x id
    (applyMusicUpdates u now) (fun _ => rfl) db hx

theorem findRow_updateMusicItem_self (id : String) (u : MusicUpdates)
    (now : Nat) (db : List MusicItem) :
    findRow (fun r => r.id) id (updateMusicItem id u now db) =
      (findRow (fun r => r.id) id db).map (applyMusicUpdates u now) := by
  unfold updateMusicItem
  exact findRow_updateRows_self (fun r => MusicItem.id r) id
    (applyMusicUpdates u now) (fun _ => rfl) db

theorem processOneNews_frame (fetchFn : String → Except Unit ArticleContent)
    (translateFn : String → Option String → Except Unit NewsTranslation)
    (filters : List String) (now : Nat) (db : List NewsItem)
    (news : NewsItem) (x : String) (hx : x ≠ news.id) :
    findRow (fun r => r.id) x (processOneNews fetchFn translateFn filters now db news) =
      findRow (fun r => r.id) x db := by
  simp only [processOneNews]
  by_cases hC : (containsKeyword news.title filters ||
      (jsTruthy news.content && containsKeyword (news.content.getD "") filters)) = true
  · rw [if_pos hC]
    exact findRow_updateNewsStatus_ne x news.id _ now db hx
  · rw [if_neg hC]
    by_cases hjc : jsTruthy news.content = true
    · have hn : ¬ ((!jsTruthy news.content) = true) := by rw [hjc]; simp
      rw [if_neg hn]
      cases htr : translateFn news.title news.content with
      | error e => simp only [htr]
      | ok tr =>
          simp only [htr]
          exact findRow_updateNewsItem_ne x news.id _ now db hx
    · rw [Bool.not_eq_true] at hjc
      have hp : (!jsTruthy news.content) = true := by rw [hjc]; rfl
      rw [if_pos hp]
      cases hf : fetchFn news.link with
      | error e => simp only [hf]
      | ok art =>
          simp only [hf]
          cases htr : translateFn news.title (some art.content) with
          | error e =>
              simp only [htr]
              exact findRow_updateNewsItem_ne x news.id _ now db hx
          | ok tr =>
              simp only [htr]
              rw [findRow_updateNewsItem_ne x news.id _ now _ hx]
              exact findRow_updateNewsItem_ne x news.id _ now db hx

theorem processOneNews_status (fetchFn : String → Except Unit ArticleContent)
    (translateFn : String → Option String → Except Unit NewsTranslation)
    (filters : List String) (now : Nat) (db : List NewsItem)
    (news r : NewsItem)
    (hfind : findRow (fun r => r.id) news.id db = some r) :
    newsStatusOf news.id (processOneNews fetchFn translateFn filters now db news) =
      some ((newsTranslateOutcome fetchFn translateFn filters news).getD r.status) := by
  unfold newsStatusOf
  simp only [processOneNews, newsTranslateOutcome, enrichNews]
  by_cases hC : (containsKeyword news.title filters ||
      (jsTruthy news.content && containsKeyword (news.content.getD "") filters)) = true
  · rw [if_pos hC, if_pos hC]
    rw [findRow_updateNewsStatus_self news.id .REJECTED now db, hfind]
    rfl
  · rw [if_neg hC, if_neg hC]
    by_cases hjc : jsTruthy news.content = true
    · have hn : ¬ ((!jsTruthy news.content) = true) := by rw [hjc]; simp
      rw [if_neg hn, if_neg hn]
      cases htr : translateFn news.title news.content with
      | error e =>
          simp only [htr]
          rw [hfind]
          rfl
      | ok tr =>
          simp only [htr]
          rw [findRow_updateNewsItem_self, hfind]
          rfl
    · rw [Bool.not_eq_true] at hjc
      have hp : (!jsTruthy news.content) = true := by rw [hjc]; rfl
      rw [if_pos hp, if_pos hp]
      cases hf : fetchFn news.link with
      | error e =>
          simp only [hf]
          rw [hfind]
          rfl
      | ok art =>
          simp only [hf]
          cases htr : translateFn news.title (some art.content) with
          | error e =>
              simp only [htr]
              rw [findRow_updateNewsItem_self, hfind]
              rfl
          | ok tr =>
              simp only [htr]
              rw [findRow_updateNewsItem_self, findRow_updateNewsItem_self, hfind]
              rfl

theorem processOneMusic_frame (fetchFn : String → Except Unit MusicContent)
    (translateFn : MusicItem → Except Unit MusicTranslation) (now : Nat)
    (db : List MusicItem) (music : MusicItem) (x : String)
    (hx : x ≠ music.id) :
    findRow (fun r => r.id) x (processOneMusic fetchFn translateFn now db music) =
      findRow (fun r => r.id) x db := by
  simp only [processOneMusic]
  by_cases hjc : jsTruthy music.mp3_url = true
  · have hn : ¬ ((!jsTruthy music.mp3_url) = true) := by rw [hjc]; simp
    rw [if_neg hn]
    cases htr : translateFn music with
    | error e => simp only [htr]
    | ok tr =>
        simp only [htr]
        exact findRow_updateMusicItem_ne x music.id _ now db hx
  · rw [Bool.not_eq_true] at hjc
    have hp : (!jsTruthy music.mp3_url) = true := by rw [hjc]; rfl
    rw [if_pos hp]
    cases hf : fetchFn music.link with
    | error e => simp only [hf]
    | ok art =>
        simp only [hf]
        cases htr : translateFn { music with mp3_url := some art.mp3_url, image_url := some art.image_url } with
        | error e =>
            simp only [htr]
            exact findRow_updateMusicItem_ne x music.id _ now db hx
        | ok tr =>
            simp only [htr]
            rw [findRow_updateMusicItem_ne x music.id _ now _ hx]
            exact findRow_updateMusicItem_ne x music.id _ now db hx

theorem processOneMusic_status (fetchFn : String → Except Unit MusicContent)
    (translateFn : MusicItem → Except Unit MusicTranslation) (now : Nat)
    (db : List MusicItem) (music r : MusicItem)
    (hfind : findRow (fun r => r.id) music.id db = some r) :
    musicStatusOf music.id (processOneMusic fetchFn translateFn now db music) =
      some ((musicTranslateOutcome fetchFn translateFn music).getD r.status) := by
  unfold musicStatusOf
  simp only [processOneMusic, musicTranslateOutcome, enrichMusic]
  by_cases hjc : jsTruthy music.mp3_url = true
  · have hn : ¬ ((!jsTruthy music.mp3_url) = true) := by rw [hjc]; simp
    rw [if_neg hn, if_neg hn]
    cases htr : translateFn music with
    | error e =>
        simp only [htr]
        rw [hfind]
        rfl
    | ok tr =>
        simp only [htr]
        rw [findRow_updateMusicItem_self, hfind]
        rfl
  · rw [Bool.not_eq_true] at hjc
    have hp : (!jsTruthy music.mp3_url) = true := by rw [hjc]; rfl
    rw [if_pos hp, if_pos hp]
    cases hf : fetchFn music.link with
    | error e =>
        simp only [hf]
        rw [hfind]
        rfl
    | ok art =>
        simp only [hf]
        cases htr : translateFn { music with mp3_url := some art.mp3_url, image_url := some art.image_url } with
        | error e =>
            simp only [htr]
            rw [findRow_updateMusicItem_self, hfind]
            rfl
        | ok tr =>
            simp only [htr]
            rw [findRow_updateMusicItem_self, findRow_updateMusicItem_self, hfind]
            rfl

/-! ## Lemmas: batches, ingestion, outcomes -/

theorem mem_getNewsByStatus (st : Status) (lim : Nat) (db : List NewsItem)
    (it : NewsItem) (h : it ∈ getNewsByStatus st lim db) :
    it ∈ db ∧ it.status = st := by
  unfold getNewsByStatus at h
  obtain ⟨h1, h2⟩ := mem_sortFilterTake (fun r => r.created_at)
    (fun r => r.status == st) lim db it h
  exact ⟨h1, by simpa using h2⟩

theorem nodup_getNewsByStatus (st : Status) (lim : Nat) (db : List NewsItem)
    (h : (db.map (fun r => NewsItem.id r)).Nodup) :
    ((getNewsByStatus st lim db).map (fun r => NewsItem.id r)).Nodup := by
  unfold getNewsByStatus
  exact nodup_map_sortFilterTake (fun r => NewsItem.id r) _ _ lim db h

theorem mem_getMusicByStatus (st : Status) (lim : Nat) (db : List MusicItem)
    (it : MusicItem) (h : it ∈ getMusicByStatus st lim db) :
    it ∈ db ∧ it.status = st := by
  unfold getMusicByStatus at h
  obtain ⟨h1, h2⟩ := mem_sortFilterTake (fun r => r.created_at)
    (fun r => r.status == st) lim db it h
  exact ⟨h1, by simpa using h2⟩

theorem nodup_getMusicByStatus (st : Status) (lim : Nat) (db : List MusicItem)
    (h : (db.map (fun r => MusicItem.id r)).Nodup) :
    ((getMusicByStatus st lim db).map (fun r => MusicItem.id r)).Nodup := by
  unfold getMusicByStatus
  exact nodup_map_sortFilterTake (fun r => MusicItem.id r) _ _ lim db h

theorem insertNewsItem_preserves (it : RawNews) (now : Nat)
    (db : List NewsItem) (x : String) (a : NewsItem)
    (h : findRow (fun r => r.id) x db = some a) :
    findRow (fun r => r.id) x (insertNewsItem it now db).1 = some a := by
  simp only [insertNewsItem]
  cases hf : findRow (fun r => NewsItem.id r) (generateHash (it.title ++ it.link)) db with
  | some b => exact h
  | none => exact findRow_append_left (fun r => NewsItem.id r) x db _ a h

theorem insertMusicItem_preserves (it : RawMusic) (now : Nat)
    (db : List MusicItem) (x : String) (a : MusicItem)
    (h : findRow (fun r => r.id) x db = some a) :
    findRow (fun r => r.id) x (insertMusicItem it now db).1 = some a := by
  simp only [insertMusicItem]
  cases hf : findRow (fun r => MusicItem.id r) (generateHash (it.title ++ it.link)) db with
  | some b => exact h
  | none => exact findRow_append_left (fun r => MusicItem.id r) x db _ a h

theorem scrapeAndStoreNews_preserves (sources : List (Except Unit (List RawNews)))
    (now : Nat) (db : List NewsItem) (x : String) (a : NewsItem)
    (h : findRow (fun r => r.id) x db = some a) :
    findRow (fun r => r.id) x (scrapeAndStoreNews sources now db) = some a := by
  unfold scrapeAndStoreNews
  refine foldl_preserves (fun r => NewsItem.id r) _ ?_ sources db x a h
  intro db2 src x2 a2 h2
  cases src with
  | error e => exact h2
  | ok items =>
      exact foldl_preserves (fun r => NewsItem.id r) _
        (fun db3 it3 x3 a3 h3 => insertNewsItem_preserves it3 now db3 x3 a3 h3)
        items db2 x2 a2 h2

theorem scrapeAndStoreMusic_preserves (sources : List (Except Unit (List RawMusic)))
    (now : Nat) (db : List MusicItem) (x : String) (a : MusicItem)
    (h : findRow (fun r => r.id) x db = some a) :
    findRow (fun r => r.id) x (scrapeAndStoreMusic sources now db) = some a := by
  unfold scrapeAndStoreMusic
  refine foldl_preserves (fun r => MusicItem.id r) _ ?_ sources db x a h
  intro db2 src x2 a2 h2
  cases src with
  | error e => exact h2
  | ok items =>
      exact foldl_preserves (fun r => MusicItem.id r) _
        (fun db3 it3 x3 a3 h3 => insertMusicItem_preserves it3 now db3 x3 a3 h3)
        items db2 x2 a2 h2

theorem newsTranslateOutcome_cases (fetchFn : String → Except Unit ArticleContent)
    (translateFn : String → Option String → Except Unit NewsTranslation)
    (filters : List String) (news : NewsItem) :
    newsTranslateOutcome fetchFn translateFn filters news = none ∨
    newsTranslateOutcome fetchFn translateFn filters news = some .REJECTED ∨
    newsTranslateOutcome fetchFn translateFn filters news = some .TRANSLATED := by
  unfold newsTranslateOutcome
  split
  · exact Or.inr (Or.inl rfl)
  · cases henr : enrichNews fetchFn news with
    | error e => exact Or.inl rfl
    | ok n1 =>
        dsimp only
        cases htr : translateFn n1.title n1.content with
        | error e => exact Or.inl rfl
        | ok tr =>
            dsimp only
            by_cases hb : (containsKeyword tr.translatedTitle filters ||
                containsKeyword tr.translatedContent filters) = true
            · rw [if_pos hb]
              exact Or.inr (Or.inl rfl)
            · rw [if_neg hb]
              exact Or.inr (Or.inr rfl)

theorem musicTranslateOutcome_cases (fetchFn : String → Except Unit MusicContent)
    (translateFn : MusicItem → Except Unit MusicTranslation)
    (music : MusicItem) :
    musicTranslateOutcome fetchFn translateFn music = none ∨
    musicTranslateOutcome fetchFn translateFn music = some .TRANSLATED := by
  unfold musicTranslateOutcome
  cases henr : enrichMusic fetchFn music with
  | error e => exact Or.inl rfl
  | ok m1 =>
      dsimp only
      cases htr : translateFn m1 with
      | error e => exact Or.inl rfl
      | ok tr => exact Or.inr rfl

theorem publishMusicToTelegram_ok (photoRes audioRes : Except Unit Unit)
    (music : MusicItem) :
    ∃ o, publishMusicToTelegram photoRes audioRes (.ok ()) music = .ok o := by
  unfold publishMusicToTelegram
  dsimp only
  split
  · exact ⟨_, rfl⟩
  · exact ⟨_, rfl⟩

theorem insertNewsItem_found (item : RawNews) (now : Nat) (db : List NewsItem)
    (b : NewsItem)
    (hb : findRow (fun r => r.id) (generateHash (item.title ++ item.link)) db = some b) :
    insertNewsItem item now db = (db, generateHash (item.title ++ item.link)) := by
  simp only [insertNewsItem, hb]

theorem insertNewsItem_mem (item : RawNews) (now : Nat) (db : List NewsItem) :
    ∃ b, findRow (fun r => r.id) (generateHash (item.title ++ item.link))
      (insertNewsItem item now db).1 = some b := by
  simp only [insertNewsItem]
  cases hf : findRow (fun r => NewsItem.id r)
      (generateHash (item.title ++ item.link)) db with
  | some b => exact ⟨b, hf⟩
  | none =>
      dsimp only
      rw [findRow_append_none _ _ db _ hf, findRow_cons, if_pos rfl]
      exact ⟨_, rfl⟩

theorem insertNewsItem_id (item : RawNews) (now : Nat) (db : List NewsItem) :
    (insertNewsItem item now db).2 = generateHash (item.title ++ item.link) := by
  simp only [insertNewsItem]
  cases hf : findRow (fun r => NewsItem.id r)
      (generateHash (item.title ++ item.link)) db <;> rfl

theorem insertMusicItem_found (item : RawMusic) (now : Nat)
    (db : List MusicItem) (b : MusicItem)
    (hb : findRow (fun r => r.id) (generateHash (item.title ++ item.link)) db = some b) :
    insertMusicItem item now db = (db, generateHash (item.title ++ item.link)) := by
  simp only [insertMusicItem, hb]

theorem insertMusicItem_mem (item : RawMusic) (now : Nat) (db : List MusicItem) :
    ∃ b, findRow (fun r => r.id) (generateHash (item.title ++ item.link))
      (insertMusicItem item now db).1 = some b := by
  simp only [insertMusicItem]
  cases hf : findRow (fun r => MusicItem.id r)
      (generateHash (item.title ++ item.link)) db with
  | some b => exact ⟨b, hf⟩
  | none =>
      dsimp only
      rw [findRow_append_none _ _ db _ hf, findRow_cons, if_pos rfl]
      exact ⟨_, rfl⟩

theorem insertMusicItem_id (item : RawMusic) (now : Nat) (db : List MusicItem) :
    (insertMusicItem item now db).2 = generateHash (item.title ++ item.link) := by
  simp only [insertMusicItem]
  cases hf : findRow (fun r => MusicItem.id r)
      (generateHash (item.title ++ item.link)) db <;> rfl

/-! ## Claim theorems -/

/-- C2: insertion is idempotent.  For a fixed (title, link), a second
`insertNewsItem` / `insertMusicItem` call returns exactly the store and id
of the first call: the same id, no second row, and every field of every
stored row (status and timestamps included) unchanged — regardless of the
clock values of the two calls. -/
theorem insert_idempotent (item : RawNews) (now1 now2 : Nat)
    (db : List NewsItem) (mitem : RawMusic) (mnow1 mnow2 : Nat)
    (mdb : List MusicItem) :
    insertNewsItem item now2 (insertNewsItem item now1 db).1 =
      insertNewsItem item now1 db ∧
    insertMusicItem mitem mnow2 (insertMusicItem mitem mnow1 mdb).1 =
      insertMusicItem mitem mnow1 mdb := by
  constructor
  · obtain ⟨b, hb⟩ := insertNewsItem_mem item now1 db
    rw [insertNewsItem_found item now2 _ b hb, ← insertNewsItem_id item now1 db]
  · obtain ⟨b, hb⟩ := insertMusicItem_mem mitem mnow1 mdb
    rw [insertMusicItem_found mitem mnow2 _ b hb, ← insertMusicItem_id mitem mnow1 mdb]

/-- C3: review batch atomicity.  If the Gemini review call fails, the
review stage writes nothing — it returns the store unchanged with the
error surfaced, and every item of the PENDING_REVIEW batch is still in
PENDING_REVIEW afterwards. -/
theorem review_batch_atomic
    (reviewFn : List ReviewEntry → Except Unit (List String)) (now : Nat)
    (db : List NewsItem)
    (hnodup : (db.map (fun r => NewsItem.id r)).Nodup)
    (hfail : reviewFn (newsReviewArg db) = .error ())
    (hne : getNewsByStatus .PENDING_REVIEW 100 db ≠ []) :
    processPendingNews reviewFn now db = (db, .error ()) ∧
    ∀ it ∈ getNewsByStatus .PENDING_REVIEW 100 db,
      newsStatusOf it.id (processPendingNews reviewFn now db).1 =
        some .PENDING_REVIEW := by
  have hmain : processPendingNews reviewFn now db = (db, .error ()) := by
    simp only [processPendingNews]
    rw [if_neg (fun h => hne (by simpa using h)), hfail]
  refine ⟨hmain, ?_⟩
  intro it hit
  rw [hmain]
  obtain ⟨hmem, hst⟩ := mem_getNewsByStatus _ _ _ _ hit
  unfold newsStatusOf
  rw [findRow_eq_of_mem (fun r => NewsItem.id r) db hnodup it hmem,
    Option.map_some', hst]

/-- Witness for C3 at a concrete one-item store with a failing reviewer. -/
theorem review_batch_atomic_witness :
    processPendingNews (fun _ => .error ()) 5
        [{ id := "a", title := "t", link := "l", source := "",
           status := .PENDING_REVIEW, created_at := 0, updated_at := 0 }] =
      ([{ id := "a", title := "t", link := "l", source := "",
          status := .PENDING_REVIEW, created_at := 0, updated_at := 0 }],
       .error ()) ∧
    newsStatusOf "a"
        (processPendingNews (fun _ => .error ()) 5
          [{ id := "a", title := "t", link := "l", source := "",
             status := .PENDING_REVIEW, created_at := 0, updated_at := 0 }]).1 =
      some .PENDING_REVIEW := by
  have h := review_batch_atomic (fun _ => .error ()) 5
    [{ id := "a", title := "t", link := "l", source := "",
       status := .PENDING_REVIEW, created_at := 0, updated_at := 0 }]
    (by decide) rfl (by decide)
  exact ⟨h.1, h.2
    { id := "a", title := "t", link := "l", source := "",
      status := .PENDING_REVIEW, created_at := 0, updated_at := 0 }
    (by decide)⟩

/-- C9 (corrected): the fingerprint is deterministic, and it depends only
on the concatenation `title ++ link` — equal concatenations always give
equal digests.  Injectivity on (title, link) pairs, as claimed, is
therefore false (see the counterexample): distinct pairs with the same
concatenation collide. -/
theorem fingerprint_concat :
    (∀ t l, fingerprint t l = fingerprint t l) ∧
    (∀ t1 l1 t2 l2, t1 ++ l1 = t2 ++ l2 →
      fingerprint t1 l1 = fingerprint t2 l2) := by
  refine ⟨fun t l => rfl, fun t1 l1 t2 l2 h => ?_⟩
  unfold fingerprint
  rw [h]

/-- Witness for C9 at the concrete colliding pair. -/
theorem fingerprint_concat_witness :
    fingerprint "ab" "c" = fingerprint "a" "bc" :=
  fingerprint_concat.2 "ab" "c" "a" "bc" (by decide)

/-- Counterexample to C9 as stated: ("ab", "c") and ("a", "bc") are
distinct (title, link) pairs with the same fingerprint, because
`generateHash` is applied to the bare concatenation. -/
theorem fingerprint_injective_counterexample :
    fingerprint "ab" "c" = fingerprint "a" "bc" ∧
    ("ab", "c") ≠ (("a", "bc") : String × String) := by
  constructor
  · unfold fingerprint
    exact congrArg generateHash (by decide)
  · decide

/-- C8 (corrected): `updateNewsItem` / `updateMusicItem` with a present id
merge exactly the named fields into the row (absent keys leave the column
untouched), always set `updated_at` to the current timestamp, and touch no
other row; but with an absent id the UPDATE silently affects zero rows —
the store is returned unchanged and no NotFound error exists (see the
counterexample against the spec model). -/
theorem update_fields_merge (id : String) (u : NewsUpdates) (now : Nat)
    (db : List NewsItem) (mid : String) (mu : MusicUpdates) (mnow : Nat)
    (mdb : List MusicItem) :
    (findRow (fun r => r.id) id db = none → updateNewsItem id u now db = db) ∧
    (∀ r, findRow (fun r => r.id) id db = some r →
      findRow (fun r => r.id) id (updateNewsItem id u now db) =
          some (applyNewsUpdates u now r) ∧
        (applyNewsUpdates u now r).updated_at = now ∧
        ∀ x, x ≠ id → findRow (fun r => r.id) x (updateNewsItem id u now db) =
          findRow (fun r => r.id) x db) ∧
    (findRow (fun r => r.id) mid mdb = none →
      updateMusicItem mid mu mnow mdb = mdb) ∧
    (∀ r, findRow (fun r => r.id) mid mdb = some r →
      findRow (fun r => r.id) mid (updateMusicItem mid mu mnow mdb) =
          some (applyMusicUpdates mu mnow r) ∧
        (applyMusicUpdates mu mnow r).updated_at = mnow ∧
        ∀ x, x ≠ mid → findRow (fun r => r.id) x (updateMusicItem mid mu mnow mdb) =
          findRow (fun r => r.id) x mdb) := by
  refine ⟨?_, ?_, ?_, ?_⟩
  · intro h
    unfold updateNewsItem
    exact updateRows_not_found _ id _ db h
  · intro r hr
    refine ⟨?_, rfl, ?_⟩
    · rw [findRow_updateNewsItem_self, hr, Option.map_some']
    · intro x hx
      exact findRow_updateNewsItem_ne x id u now db hx
  · intro h
    unfold updateMusicItem
    exact updateRows_not_found _ mid _ mdb h
  · intro r hr
    refine ⟨?_, rfl, ?_⟩
    · rw [findRow_updateMusicItem_self, hr, Option.map_some']
    · intro x hx
      exact findRow_updateMusicItem_ne x mid mu mnow mdb hx

/-- Witness for C8 at a concrete one-row store and a one-field update. -/
theorem update_fields_merge_witness :
    findRow (fun r => NewsItem.id r) "a"
        (updateNewsItem "a" { status := some .REJECTED } 9
          [{ id := "a", title := "t", link := "l", source := "",
             status := .PENDING_REVIEW, created_at := 0, updated_at := 0 }]) =
      some (applyNewsUpdates { status := some .REJECTED } 9
        { id := "a", title := "t", link := "l", source := "",
          status := .PENDING_REVIEW, created_at := 0, updated_at := 0 }) ∧
    updateMusicItem "zz" {} 9 [] = [] := by
  constructor
  · exact ((update_fields_merge "a" { status := some .REJECTED } 9
      [{ id := "a", title := "t", link := "l", source := "",
         status := .PENDING_REVIEW, created_at := 0, updated_at := 0 }]
      "zz" {} 9 []).2.1
      { id := "a", title := "t", link := "l", source := "",
        status := .PENDING_REVIEW, created_at := 0, updated_at := 0 }
      (by decide)).1
  · exact (update_fields_merge "a" { status := some .REJECTED } 9
      [{ id := "a", title := "t", link := "l", source := "",
         status := .PENDING_REVIEW, created_at := 0, updated_at := 0 }]
      "zz" {} 9 []).2.2.1 (by decide)

/-- Counterexample to C8 as stated: at the concrete absent id "a" on the
empty store, the code's update returns the store unchanged and raises
nothing, while the spec-modelled `updateFieldsSpec` demands a NotFound
error. -/
theorem update_fields_notfound_counterexample :
    updateNewsItem "a" { status := some .REJECTED } 5 [] = [] ∧
    updateFieldsSpec "a" { status := some .REJECTED } 5 [] = .error () := by
  constructor
  · rfl
  · rfl

/-- C4 (corrected): on a successful review call, every item of the fetched
PENDING_REVIEW batch (the up-to-100 newest PENDING_REVIEW rows, the query
limit of `getNewsByStatus`) whose id is in the accepted set transitions to
PENDING_TRANSLATION and every other batch item transitions to REJECTED; no
fetched batch item remains in PENDING_REVIEW and the run reports success.
The claim's reading of the batch as "all items in PENDING_REVIEW" fails
once more than 100 items are pending (see the counterexample). -/
theorem review_full_batch_decision
    (reviewFn : List ReviewEntry → Except Unit (List String)) (now : Nat)
    (db : List NewsItem) (accepted : List String)
    (hnodup : (db.map (fun r => NewsItem.id r)).Nodup)
    (hok : reviewFn (newsReviewArg db) = .ok accepted) :
    (processPendingNews reviewFn now db).2 = .ok () ∧
    ∀ it ∈ getNewsByStatus .PENDING_REVIEW 100 db,
      newsStatusOf it.id (processPendingNews reviewFn now db).1 =
        some (if accepted.contains it.id then Status.PENDING_TRANSLATION
              else Status.REJECTED) := by
  simp only [processPendingNews]
  by_cases hpe : (getNewsByStatus .PENDING_REVIEW 100 db).isEmpty = true
  · rw [if_pos hpe]
    refine ⟨rfl, ?_⟩
    intro it hit
    rw [List.isEmpty_iff.mp hpe] at hit
    cases hit
  · rw [if_neg hpe, hok]
    dsimp only
    refine ⟨rfl, ?_⟩
    intro it hit
    have hframe : ∀ (db2 : List NewsItem) (n : NewsItem) (x : String),
        x ≠ n.id →
        findRow (fun r => r.id) x
          (updateNewsStatus n.id
            (if accepted.contains n.id then Status.PENDING_TRANSLATION
             else Status.REJECTED) now db2) =
        findRow (fun r => r.id) x db2 :=
      fun db2 n x hx => findRow_updateNewsStatus_ne x n.id _ now db2 hx
    obtain ⟨db2, h1, h2⟩ := foldl_findRow_mem (fun r => NewsItem.id r)
      (fun r => NewsItem.id r)
      (fun acc news =>
        updateNewsStatus news.id
          (if accepted.contains news.id then Status.PENDING_TRANSLATION
           else Status.REJECTED) now acc)
      hframe (getNewsByStatus .PENDING_REVIEW 100 db) db it hit
      (nodup_getNewsByStatus .PENDING_REVIEW 100 db hnodup)
    have hdb : findRow (fun r => NewsItem.id r) it.id db = some it :=
      findRow_eq_of_mem (fun r => NewsItem.id r) db hnodup it
        (mem_getNewsByStatus _ _ _ _ hit).1
    unfold newsStatusOf
    rw [h1, findRow_updateNewsStatus_self, h2.trans hdb, Option.map_some',
      Option.map_some']

/-- Witness for C4 at a concrete two-item store where one id is accepted
and the other is not. -/
theorem review_full_batch_decision_witness :
    newsStatusOf "a"
        (processPendingNews (fun _ => .ok ["a"]) 5
          [{ id := "a", title := "t", link := "l", source := "",
             status := .PENDING_REVIEW, created_at := 0, updated_at := 0 },
           { id := "b", title := "u", link := "m", source := "",
             status := .PENDING_REVIEW, created_at := 1, updated_at := 0 }]).1 =
      some .PENDING_TRANSLATION ∧
    newsStatusOf "b"
        (processPendingNews (fun _ => .ok ["a"]) 5
          [{ id := "a", title := "t", link := "l", source := "",
             status := .PENDING_REVIEW, created_at := 0, updated_at := 0 },
           { id := "b", title := "u", link := "m", source := "",
             status := .PENDING_REVIEW, created_at := 1, updated_at := 0 }]).1 =
      some .REJECTED := by
  have h := review_full_batch_decision (fun _ => .ok ["a"]) 5
    [{ id := "a", title := "t", link := "l", source := "",
       status := .PENDING_REVIEW, created_at := 0, updated_at := 0 },
     { id := "b", title := "u", link := "m", source := "",
       status := .PENDING_REVIEW, created_at := 1, updated_at := 0 }]
    ["a"] (by decide) rfl
  constructor
  · have ha := h.2
      { id := "a", title := "t", link := "l", source := "",
        status := .PENDING_REVIEW, created_at := 0, updated_at := 0 }
      (by decide)
    rw [ha]
    decide
  · have hb := h.2
      { id := "b", title := "u", link := "m", source := "",
        status := .PENDING_REVIEW, created_at := 1, updated_at := 0 }
      (by decide)
    rw [hb]
    decide

set_option maxRecDepth 100000 in
/-- Counterexample to C4 as stated: with 101 PENDING_REVIEW items and a
reviewer accepting every id, the run succeeds but the oldest item
(id "0", accepted) is not part of the 100-item batch and is still in
PENDING_REVIEW afterwards — so not every accepted PENDING_REVIEW item is
transitioned. -/
theorem review_full_batch_decision_counterexample :
    exceptOk (processPendingNews
        (fun _ => .ok ((List.range 101).map toString)) 7
        ((List.range 101).map fun i =>
          { id := toString i, title := "t", link := "l", source := "",
            status := .PENDING_REVIEW, created_at := i, updated_at := 0 })).2 =
      true ∧
    "0" ∈ (List.range 101).map toString ∧
    newsStatusOf "0"
        ((List.range 101).map fun i =>
          ({ id := toString i, title := "t", link := "l", source := "",
             status := .PENDING_REVIEW, created_at := i,
             updated_at := 0 } : NewsItem)) = some .PENDING_REVIEW ∧
    newsStatusOf "0"
        (processPendingNews
          (fun _ => .ok ((List.range 101).map toString)) 7
          ((List.range 101).map fun i =>
            { id := toString i, title := "t", link := "l", source := "",
              status := .PENDING_REVIEW, created_at := i,
              updated_at := 0 })).1 = some .PENDING_REVIEW := by
  refine ⟨by decide, by decide, by decide, by decide⟩

/-- C5: per-item isolation in the translate stages.  For every item of the
PENDING_TRANSLATION batch, the status after the stage run equals the
item's own outcome: TRANSLATED or REJECTED when its processing succeeds,
and unchanged — still PENDING_TRANSLATION — when one of its collaborator
calls throws (`none` outcome); items are keyed independently, so one
item's exception never affects another item's resulting status. -/
theorem translate_per_item_isolation
    (fetchFn : String → Except Unit ArticleContent)
    (translateFn : String → Option String → Except Unit NewsTranslation)
    (filters : List String) (now : Nat) (db : List NewsItem)
    (mfetch : String → Except Unit MusicContent)
    (mtrans : MusicItem → Except Unit MusicTranslation) (mnow : Nat)
    (mdb : List MusicItem)
    (hnodup : (db.map (fun r => NewsItem.id r)).Nodup)
    (hmnodup : (mdb.map (fun r => MusicItem.id r)).Nodup) :
    (∀ it ∈ getNewsByStatus .PENDING_TRANSLATION 100 db,
      newsStatusOf it.id
          (processTranslationNews fetchFn translateFn filters now db) =
        some ((newsTranslateOutcome fetchFn translateFn filters it).getD
          .PENDING_TRANSLATION)) ∧
    (∀ it ∈ getMusicByStatus .PENDING_TRANSLATION 100 mdb,
      musicStatusOf it.id (processTranslationMusic mfetch mtrans mnow mdb) =
        some ((musicTranslateOutcome mfetch mtrans it).getD
          .PENDING_TRANSLATION)) := by
  constructor
  · intro it hit
    unfold processTranslationNews
    obtain ⟨db2, h1, h2⟩ := foldl_findRow_mem (fun r => NewsItem.id r)
      (fun r => NewsItem.id r) (processOneNews fetchFn translateFn filters now)
      (fun db2 n x hx => processOneNews_frame fetchFn translateFn filters now db2 n x hx)
      (getNewsByStatus .PENDING_TRANSLATION 100 db) db it hit
      (nodup_getNewsByStatus .PENDING_TRANSLATION 100 db hnodup)
    have hdb : findRow (fun r => NewsItem.id r) it.id db = some it :=
      findRow_eq_of_mem (fun r => NewsItem.id r) db hnodup it
        (mem_getNewsByStatus _ _ _ _ hit).1
    have hp := processOneNews_status fetchFn translateFn filters now db2 it it
      (h2.trans hdb)
    unfold newsStatusOf at hp ⊢
    rw [h1, hp, (mem_getNewsByStatus _ _ _ _ hit).2]
  · intro it hit
    unfold processTranslationMusic
    obtain ⟨db2, h1, h2⟩ := foldl_findRow_mem (fun r => MusicItem.id r)
      (fun r => MusicItem.id r) (processOneMusic mfetch mtrans mnow)
      (fun db2 n x hx => processOneMusic_frame mfetch mtrans mnow db2 n x hx)
      (getMusicByStatus .PENDING_TRANSLATION 100 mdb) mdb it hit
      (nodup_getMusicByStatus .PENDING_TRANSLATION 100 mdb hmnodup)
    have hdb : findRow (fun r => MusicItem.id r) it.id mdb = some it :=
      findRow_eq_of_mem (fun r => MusicItem.id r) mdb hmnodup it
        (mem_getMusicByStatus _ _ _ _ hit).1
    have hp := processOneMusic_status mfetch mtrans mnow db2 it it (h2.trans hdb)
    unfold musicStatusOf at hp ⊢
    rw [h1, hp, (mem_getMusicByStatus _ _ _ _ hit).2]

/-- Witness for C5: item "a" (translation throws) stays
PENDING_TRANSLATION while item "b" of the same batch reaches TRANSLATED;
a music item whose fetch throws stays PENDING_TRANSLATION. -/
theorem translate_per_item_isolation_witness :
    newsStatusOf "a"
        (processTranslationNews (fun _ => .error ())
          (fun t _ => if t = "bad" then .error ()
            else .ok { translatedTitle := "T", translatedContent := "C" })
          [] 5
          [{ id := "a", title := "bad", link := "l", source := "",
             content := some "c", status := .PENDING_TRANSLATION,
             created_at := 0, updated_at := 0 },
           { id := "b", title := "good", link := "m", source := "",
             content := some "d", status := .PENDING_TRANSLATION,
             created_at := 1, updated_at := 0 }]) = some .PENDING_TRANSLATION ∧
    newsStatusOf "b"
        (processTranslationNews (fun _ => .error ())
          (fun t _ => if t = "bad" then .error ()
            else .ok { translatedTitle := "T", translatedContent := "C" })
          [] 5
          [{ id := "a", title := "bad", link := "l", source := "",
             content := some "c", status := .PENDING_TRANSLATION,
             created_at := 0, updated_at := 0 },
           { id := "b", title := "good", link := "m", source := "",
             content := some "d", status := .PENDING_TRANSLATION,
             created_at := 1, updated_at := 0 }]) = some .TRANSLATED ∧
    musicStatusOf "m"
        (processTranslationMusic (fun _ => .error ()) (fun _ => .error ()) 5
          [{ id := "m", title := "s", artist := "x", link := "l",
             status := .PENDING_TRANSLATION, created_at := 0,
             updated_at := 0 }]) = some .PENDING_TRANSLATION := by
  have h := translate_per_item_isolation (fun _ => .error ())
    (fun t _ => if t = "bad" then .error ()
      else .ok { translatedTitle := "T", translatedContent := "C" })
    [] 5
    [{ id := "a", title := "bad", link := "l", source := "",
       content := some "c", status := .PENDING_TRANSLATION,
       created_at := 0, updated_at := 0 },
     { id := "b", title := "good", link := "m", source := "",
       content := some "d", status := .PENDING_TRANSLATION,
       created_at := 1, updated_at := 0 }]
    (fun _ => .error ()) (fun _ => .error ()) 5
    [{ id := "m", title := "s", artist := "x", link := "l",
       status := .PENDING_TRANSLATION, created_at := 0, updated_at := 0 }]
    (by decide) (by decide)
  refine ⟨?_, ?_, ?_⟩
  · have ha := h.1
      { id := "a", title := "bad", link := "l", source := "",
        content := some "c", status := .PENDING_TRANSLATION,
        created_at := 0, updated_at := 0 } (by decide)
    rw [ha]
    decide
  · have hb := h.1
      { id := "b", title := "good", link := "m", source := "",
        content := some "d", status := .PENDING_TRANSLATION,
        created_at := 1, updated_at := 0 } (by decide)
    rw [hb]
    decide
  · have hm := h.2
      { id := "m", title := "s", artist := "x", link := "l",
        status := .PENDING_TRANSLATION, created_at := 0, updated_at := 0 }
      (by decide)
    rw [hm]
    decide

/-- C6 (corrected): keyword filtering is double-applied in the NEWS
translate stage only.  (a) A news item whose raw title or stored body
contains a blocked keyword is set to REJECTED with a result independent of
the fetch/translate collaborators — no collaborator call can influence it;
(b) a news item whose successful translation contains a blocked keyword is
set to REJECTED, not TRANSLATED.  The music translate stage applies no
keyword filter at all (see the counterexample), so the claim's "for every
item class" fails. -/
theorem translate_keyword_filter_news (filters : List String) (now : Nat) :
    (∀ (db : List NewsItem) (news : NewsItem)
       (f1 f2 : String → Except Unit ArticleContent)
       (t1 t2 : String → Option String → Except Unit NewsTranslation),
       (containsKeyword news.title filters ||
         (jsTruthy news.content &&
           containsKeyword (news.content.getD "") filters)) = true →
       processOneNews f1 t1 filters now db news =
           updateNewsStatus news.id .REJECTED now db ∧
         processOneNews f1 t1 filters now db news =
           processOneNews f2 t2 filters now db news) ∧
    (∀ (db : List NewsItem) (news r : NewsItem)
       (f : String → Except Unit ArticleContent)
       (t : String → Option String → Except Unit NewsTranslation)
       (n1 : NewsItem) (tr : NewsTranslation),
       (containsKeyword news.title filters ||
         (jsTruthy news.content &&
           containsKeyword (news.content.getD "") filters)) = false →
       enrichNews f news = .ok n1 →
       t n1.title n1.content = .ok tr →
       (containsKeyword tr.translatedTitle filters ||
         containsKeyword tr.translatedContent filters) = true →
       findRow (fun x => x.id) news.id db = some r →
       newsStatusOf news.id (processOneNews f t filters now db news) =
         some .REJECTED) := by
  constructor
  · intro db news f1 f2 t1 t2 h
    simp only [processOneNews]
    rw [if_pos h, if_pos h]
    exact ⟨rfl, rfl⟩
  · intro db news r f t n1 tr hraw henr htr hblock hfind
    rw [processOneNews_status f t filters now db news r hfind]
    unfold newsTranslateOutcome
    rw [if_neg (fun hh => by rw [hraw] at hh; cases hh), henr]
    dsimp only
    rw [htr]
    dsimp only
    rw [if_pos hblock]
    rfl

/-- Witness for C6: a raw-blocked news item is rejected identically under
two different collaborator pairs, and a news item whose translation
introduces the blocked keyword ends REJECTED. -/
theorem translate_keyword_filter_news_witness :
    (processOneNews (fun _ => .error ()) (fun _ _ => .error ()) ["bad"] 5
        [{ id := "a", title := "bad x", link := "l", source := "",
           status := .PENDING_TRANSLATION, created_at := 0, updated_at := 0 }]
        { id := "a", title := "bad x", link := "l", source := "",
          status := .PENDING_TRANSLATION, created_at := 0, updated_at := 0 } =
      updateNewsStatus "a" .REJECTED 5
        [{ id := "a", title := "bad x", link := "l", source := "",
           status := .PENDING_TRANSLATION, created_at := 0,
           updated_at := 0 }]) ∧
    (processOneNews (fun _ => .error ()) (fun _ _ => .error ()) ["bad"] 5
        [{ id := "a", title := "bad x", link := "l", source := "",
           status := .PENDING_TRANSLATION, created_at := 0, updated_at := 0 }]
        { id := "a", title := "bad x", link := "l", source := "",
          status := .PENDING_TRANSLATION, created_at := 0, updated_at := 0 } =
      processOneNews (fun _ => .ok { content := "c", image_url := "i" })
        (fun _ _ => .ok { translatedTitle := "T", translatedContent := "C" })
        ["bad"] 5
        [{ id := "a", title := "bad x", link := "l", source := "",
           status := .PENDING_TRANSLATION, created_at := 0, updated_at := 0 }]
        { id := "a", title := "bad x", link := "l", source := "",
          status := .PENDING_TRANSLATION, created_at := 0,
          updated_at := 0 }) ∧
    newsStatusOf "b"
        (processOneNews (fun _ => .error ())
          (fun _ _ => .ok { translatedTitle := "bad T", translatedContent := "C" })
          ["bad"] 5
          [{ id := "b", title := "fine", link := "l", source := "",
             content := some "clean", status := .PENDING_TRANSLATION,
             created_at := 0, updated_at := 0 }]
          { id := "b", title := "fine", link := "l", source := "",
            content := some "clean", status := .PENDING_TRANSLATION,
            created_at := 0, updated_at := 0 }) = some .REJECTED := by
  have h1 := (translate_keyword_filter_news ["bad"] 5).1
    [{ id := "a", title := "bad x", link := "l", source := "",
       status := .PENDING_TRANSLATION, created_at := 0, updated_at := 0 }]
    { id := "a", title := "bad x", link := "l", source := "",
      status := .PENDING_TRANSLATION, created_at := 0, updated_at := 0 }
    (fun _ => .error ()) (fun _ => .ok { content := "c", image_url := "i" })
    (fun _ _ => .error ())
    (fun _ _ => .ok { translatedTitle := "T", translatedContent := "C" })
    (by decide)
  have h2 := (translate_keyword_filter_news ["bad"] 5).2
    [{ id := "b", title := "fine", link := "l", source := "",
       content := some "clean", status := .PENDING_TRANSLATION,
       created_at := 0, updated_at := 0 }]
    { id := "b", title := "fine", link := "l", source := "",
      content := some "clean", status := .PENDING_TRANSLATION,
      created_at := 0, updated_at := 0 }
    { id := "b", title := "fine", link := "l", source := "",
      content := some "clean", status := .PENDING_TRANSLATION,
      created_at := 0, updated_at := 0 }
    (fun _ => .error ())
    (fun _ _ => .ok { translatedTitle := "bad T", translatedContent := "C" })
    { id := "b", title := "fine", link := "l", source := "",
      content := some "clean", status := .PENDING_TRANSLATION,
      created_at := 0, updated_at := 0 }
    { translatedTitle := "bad T", translatedContent := "C" }
    (by decide) rfl rfl (by decide) (by decide)
  exact ⟨h1.1, h1.2, h2⟩

/-- Counterexample to C6 as stated: the music translate stage makes the
translate call and marks the item TRANSLATED even though its raw title
contains a configured blocked keyword — no keyword filter is applied in
the music item class. -/
theorem translate_keyword_filter_counterexample :
    containsKeyword "bad song" ["bad"] = true ∧
    musicStatusOf "m"
        (processTranslationMusic (fun _ => .error ())
          (fun _ => .ok { translatedTitle := "tt", translatedArtist := "ta" }) 5
          [{ id := "m", title := "bad song", artist := "x", link := "l",
             mp3_url := some "u", status := .PENDING_TRANSLATION,
             created_at := 0, updated_at := 0 }]) = some .TRANSLATED := by
  exact ⟨by decide, by decide⟩

/-- C10: in the music publish path, when the photo send and the audio send
both fail (both URLs present) but the plain-text fallback succeeds,
`publishMusicToTelegram` still reports success with no media delivered
(`photoSent = audioSent = false`), and the publish stage accordingly
transitions every TRANSLATED batch item to PUBLISHED — an item can reach
PUBLISHED with neither image nor audio actually sent. -/
theorem publish_music_fallback (music : MusicItem) (now : Nat)
    (db : List MusicItem)
    (himg : jsTruthy music.image_url = true)
    (hmp3 : jsTruthy music.mp3_url = true)
    (hnodup : (db.map (fun r => MusicItem.id r)).Nodup) :
    publishMusicToTelegram (.error ()) (.error ()) (.ok ()) music =
      .ok { success := true, photoSent := false, audioSent := false } ∧
    ∀ it ∈ getMusicByStatus .TRANSLATED 100 db,
      musicStatusOf it.id
          (publishMusic
            (fun m => publishMusicToTelegram (.error ()) (.error ()) (.ok ()) m)
            now db) = some .PUBLISHED := by
  constructor
  · simp only [publishMusicToTelegram, himg, hmp3]
    rfl
  · intro it hit
    unfold publishMusic
    have hframe : ∀ (db2 : List MusicItem) (m : MusicItem) (x : String),
        x ≠ m.id →
        findRow (fun r => r.id) x
          ((fun acc m =>
            match publishMusicToTelegram (.error ()) (.error ()) (.ok ()) m with
            | .ok _ => updateMusicStatus m.id .PUBLISHED now acc
            | .error _ => acc) db2 m) =
        findRow (fun r => r.id) x db2 := by
      intro db2 m x hx
      obtain ⟨o, ho⟩ := publishMusicToTelegram_ok (.error ()) (.error ()) m
      simp only [ho]
      exact findRow_updateMusicStatus_ne x m.id .PUBLISHED now db2 hx
    obtain ⟨db2, h1, h2⟩ := foldl_findRow_mem (fun r => MusicItem.id r)
      (fun r => MusicItem.id r)
      (fun acc m =>
        match publishMusicToTelegram (.error ()) (.error ()) (.ok ()) m with
        | .ok _ => updateMusicStatus m.id .PUBLISHED now acc
        | .error _ => acc)
      hframe (getMusicByStatus .TRANSLATED 100 db) db it hit
      (nodup_getMusicByStatus .TRANSLATED 100 db hnodup)
    have hdb : findRow (fun r => MusicItem.id r) it.id db = some it :=
      findRow_eq_of_mem (fun r => MusicItem.id r) db hnodup it
        (mem_getMusicByStatus _ _ _ _ hit).1
    obtain ⟨o, ho⟩ := publishMusicToTelegram_ok (.error ()) (.error ()) it
    unfold musicStatusOf
    rw [h1]
    simp only [ho]
    rw [findRow_updateMusicStatus_self, h2.trans hdb, Option.map_some',
      Option.map_some']

/-- Witness for C10 at a concrete TRANSLATED music item with both media
URLs present. -/
theorem publish_music_fallback_witness :
    publishMusicToTelegram (.error ()) (.error ()) (.ok ())
        { id := "m", title := "s", artist := "x", link := "l",
          image_url := some "i", mp3_url := some "u", status := .TRANSLATED,
          created_at := 0, updated_at := 0 } =
      .ok { success := true, photoSent := false, audioSent := false } ∧
    musicStatusOf "m"
        (publishMusic
          (fun m => publishMusicToTelegram (.error ()) (.error ()) (.ok ()) m) 9
          [{ id := "m", title := "s", artist := "x", link := "l",
             image_url := some "i", mp3_url := some "u", status := .TRANSLATED,
             created_at := 0, updated_at := 0 }]) = some .PUBLISHED := by
  have h := publish_music_fallback
    { id := "m", title := "s", artist := "x", link := "l",
      image_url := some "i", mp3_url := some "u", status := .TRANSLATED,
      created_at := 0, updated_at := 0 } 9
    [{ id := "m", title := "s", artist := "x", link := "l",
       image_url := some "i", mp3_url := some "u", status := .TRANSLATED,
       created_at := 0, updated_at := 0 }]
    (by decide) (by decide) (by decide)
  exact ⟨h.1, h.2
    { id := "m", title := "s", artist := "x", link := "l",
      image_url := some "i", mp3_url := some "u", status := .TRANSLATED,
      created_at := 0, updated_at := 0 } (by decide)⟩

theorem newsStage_ingest_evolves (sources : List (Except Unit (List RawNews)))
    (now : Nat) (db : List NewsItem) (x : String) :
    statusEvolves (newsStatusOf x db)
      (newsStatusOf x (scrapeAndStoreNews sources now db)) = true := by
  unfold newsStatusOf
  cases hdb : findRow (fun r => NewsItem.id r) x db with
  | none => exact statusEvolves_none _
  | some a =>
      rw [scrapeAndStoreNews_preserves sources now db x a hdb]
      exact statusEvolves_refl _

theorem newsStage_review_evolves
    (reviewFn : List ReviewEntry → Except Unit (List String)) (now : Nat)
    (db : List NewsItem) (hnodup : (db.map (fun r => NewsItem.id r)).Nodup)
    (x : String) :
    statusEvolves (newsStatusOf x db)
      (newsStatusOf x (processPendingNews reviewFn now db).1) = true := by
  simp only [processPendingNews]
  by_cases hpe : (getNewsByStatus .PENDING_REVIEW 100 db).isEmpty = true
  · rw [if_pos hpe]
    exact statusEvolves_refl _
  · rw [if_neg hpe]
    cases hrev : reviewFn (newsReviewArg db) with
    | error e => exact statusEvolves_refl _
    | ok accepted =>
        dsimp only
        unfold newsStatusOf
        refine foldl_statusEvolves (fun r => NewsItem.id r) (fun r => r.status)
          (fun acc news =>
            updateNewsStatus news.id
              (if accepted.contains news.id then Status.PENDING_TRANSLATION
               else Status.REJECTED) now acc)
          (getNewsByStatus .PENDING_REVIEW 100 db) db
          (fun db2 n x2 hx2 => findRow_updateNewsStatus_ne x2 n.id _ now db2 hx2)
          (nodup_getNewsByStatus .PENDING_REVIEW 100 db hnodup) hnodup
          (fun it hit => (mem_getNewsByStatus _ _ _ _ hit).1) ?_ x
        intro db2 it hit hf
        dsimp only
        rw [findRow_updateNewsStatus_self, hf, Option.map_some',
          Option.map_some']
        dsimp only
        rw [(mem_getNewsByStatus _ _ _ _ hit).2]
        by_cases hacc : (accepted.contains it.id) = true
        · rw [if_pos hacc]
          rfl
        · rw [if_neg hacc]
          rfl

theorem newsStage_translate_evolves
    (fetchFn : String → Except Unit ArticleContent)
    (translateFn : String → Option String → Except Unit NewsTranslation)
    (filters : List String) (now : Nat) (db : List NewsItem)
    (hnodup : (db.map (fun r => NewsItem.id r)).Nodup) (x : String) :
    statusEvolves (newsStatusOf x db)
      (newsStatusOf x
        (processTranslationNews fetchFn translateFn filters now db)) = true := by
  unfold processTranslationNews newsStatusOf
  refine foldl_statusEvolves (fun r => NewsItem.id r) (fun r => r.status)
    (processOneNews fetchFn translateFn filters now)
    (getNewsByStatus .PENDING_TRANSLATION 100 db) db
    (fun db2 n x2 hx2 =>
      processOneNews_frame fetchFn translateFn filters now db2 n x2 hx2)
    (nodup_getNewsByStatus .PENDING_TRANSLATION 100 db hnodup) hnodup
    (fun it hit => (mem_getNewsByStatus _ _ _ _ hit).1) ?_ x
  intro db2 it hit hf
  have hp := processOneNews_status fetchFn translateFn filters now db2 it it hf
  unfold newsStatusOf at hp
  dsimp only
  rw [hp, (mem_getNewsByStatus _ _ _ _ hit).2]
  rcases newsTranslateOutcome_cases fetchFn translateFn filters it
    with h | h | h <;> rw [h] <;> rfl

theorem newsStage_publish_evolves (publishFn : NewsItem → Except Unit Unit)
    (now : Nat) (db : List NewsItem)
    (hnodup : (db.map (fun r => NewsItem.id r)).Nodup) (x : String) :
    statusEvolves (newsStatusOf x db)
      (newsStatusOf x (publishNews publishFn now db)) = true := by
  unfold publishNews newsStatusOf
  refine foldl_statusEvolves (fun r => NewsItem.id r) (fun r => r.status)
    (fun acc news =>
      match publishFn news with
      | .ok _ => updateNewsStatus news.id .PUBLISHED now acc
      | .error _ => acc)
    (getNewsByStatus .TRANSLATED 100 db) db ?_
    (nodup_getNewsByStatus .TRANSLATED 100 db hnodup) hnodup
    (fun it hit => (mem_getNewsByStatus _ _ _ _ hit).1) ?_ x
  · intro db2 n x2 hx2
    cases hp : publishFn n with
    | error e => simp only [hp]
    | ok o =>
        simp only [hp]
        exact findRow_updateNewsStatus_ne x2 n.id .PUBLISHED now db2 hx2
  · intro db2 it hit hf
    cases hp : publishFn it with
    | error e =>
        simp only [hp]
        rw [hf, Option.map_some']
        exact statusStepOK_refl _
    | ok o =>
        simp only [hp]
        rw [findRow_updateNewsStatus_self, hf, Option.map_some',
          Option.map_some', (mem_getNewsByStatus _ _ _ _ hit).2]
        rfl

theorem musicStage_ingest_evolves (sources : List (Except Unit (List RawMusic)))
    (now : Nat) (db : List MusicItem) (x : String) :
    statusEvolves (musicStatusOf x db)
      (musicStatusOf x (scrapeAndStoreMusic sources now db)) = true := by
  unfold musicStatusOf
  cases hdb : findRow (fun r => MusicItem.id r) x db with
  | none => exact statusEvolves_none _
  | some a =>
      rw [scrapeAndStoreMusic_preserves sources now db x a hdb]
      exact statusEvolves_refl _

theorem musicStage_translate_evolves
    (fetchFn : String → Except Unit MusicContent)
    (translateFn : MusicItem → Except Unit MusicTranslation) (now : Nat)
    (db : List MusicItem)
    (hnodup : (db.map (fun r => MusicItem.id r)).Nodup) (x : String) :
    statusEvolves (musicStatusOf x db)
      (musicStatusOf x (processTranslationMusic fetchFn translateFn now db)) =
      true := by
  unfold processTranslationMusic musicStatusOf
  refine foldl_statusEvolves (fun r => MusicItem.id r) (fun r => r.status)
    (processOneMusic fetchFn translateFn now)
    (getMusicByStatus .PENDING_TRANSLATION 100 db) db
    (fun db2 n x2 hx2 => processOneMusic_frame fetchFn translateFn now db2 n x2 hx2)
    (nodup_getMusicByStatus .PENDING_TRANSLATION 100 db hnodup) hnodup
    (fun it hit => (mem_getMusicByStatus _ _ _ _ hit).1) ?_ x
  intro db2 it hit hf
  have hp := processOneMusic_status fetchFn translateFn now db2 it it hf
  unfold musicStatusOf at hp
  dsimp only
  rw [hp, (mem_getMusicByStatus _ _ _ _ hit).2]
  rcases musicTranslateOutcome_cases fetchFn translateFn it with h | h <;>
    rw [h] <;> rfl

theorem musicStage_publish_evolves
    (publishFn : MusicItem → Except Unit PublishOutcome) (now : Nat)
    (db : List MusicItem)
    (hnodup : (db.map (fun r => MusicItem.id r)).Nodup) (x : String) :
    statusEvolves (musicStatusOf x db)
      (musicStatusOf x (publishMusic publishFn now db)) = true := by
  unfold publishMusic musicStatusOf
  refine foldl_statusEvolves (fun r => MusicItem.id r) (fun r => r.status)
    (fun acc m =>
      match publishFn m with
      | .ok _ => updateMusicStatus m.id .PUBLISHED now acc
      | .error _ => acc)
    (getMusicByStatus .TRANSLATED 100 db) db ?_
    (nodup_getMusicByStatus .TRANSLATED 100 db hnodup) hnodup
    (fun it hit => (mem_getMusicByStatus _ _ _ _ hit).1) ?_ x
  · intro db2 n x2 hx2
    cases hp : publishFn n with
    | error e => simp only [hp]
    | ok o =>
        simp only [hp]
        exact findRow_updateMusicStatus_ne x2 n.id .PUBLISHED now db2 hx2
  · intro db2 it hit hf
    cases hp : publishFn it with
    | error e =>
        simp only [hp]
        rw [hf, Option.map_some']
        exact statusStepOK_refl _
    | ok o =>
        simp only [hp]
        rw [findRow_updateMusicStatus_self, hf, Option.map_some',
          Option.map_some', (mem_getMusicByStatus _ _ _ _ hit).2]
        rfl

/-- C1: over every single run of any pipeline stage (news: ingest, review,
translate, publish; music: ingest, translate, publish), with arbitrary
collaborator behaviour, every row's status only stays put or moves forward
along PENDING_REVIEW -> PENDING_TRANSLATION -> TRANSLATED -> PUBLISHED, or
drops to REJECTED from PENDING_REVIEW / PENDING_TRANSLATION; rows in
PUBLISHED or REJECTED are never changed, no row ever steps backwards, and
no row is deleted (given the primary-key uniqueness of ids). -/
theorem pipeline_forward_only :
    (∀ (s : NewsStage) (db : List NewsItem),
      (db.map (fun r => NewsItem.id r)).Nodup →
      ∀ x, statusEvolves (newsStatusOf x db)
        (newsStatusOf x (runNewsStage s db)) = true) ∧
    (∀ (s : MusicStage) (db : List MusicItem),
      (db.map (fun r => MusicItem.id r)).Nodup →
      ∀ x, statusEvolves (musicStatusOf x db)
        (musicStatusOf x (runMusicStage s db)) = true) := by
  constructor
  · intro s db hnodup x
    cases s with
    | ingest sources now => exact newsStage_ingest_evolves sources now db x
    | review reviewFn now => exact newsStage_review_evolves reviewFn now db hnodup x
    | translate f t fl now => exact newsStage_translate_evolves f t fl now db hnodup x
    | publish p now => exact newsStage_publish_evolves p now db hnodup x
  · intro s db hnodup x
    cases s with
    | ingest sources now => exact musicStage_ingest_evolves sources now db x
    | translate f t now => exact musicStage_translate_evolves f t now db hnodup x
    | publish p now => exact musicStage_publish_evolves p now db hnodup x

/-- Witness for C1: a concrete review run on a one-item news store and a
concrete publish run on a one-item music store. -/
theorem pipeline_forward_only_witness :
    statusEvolves
      (newsStatusOf "a"
        [{ id := "a", title := "t", link := "l", source := "",
           status := .PENDING_REVIEW, created_at := 0, updated_at := 0 }])
      (newsStatusOf "a"
        (runNewsStage (.review (fun _ => .ok []) 3)
          [{ id := "a", title := "t", link := "l", source := "",
             status := .PENDING_REVIEW, created_at := 0,
             updated_at := 0 }])) = true ∧
    statusEvolves
      (musicStatusOf "m"
        [{ id := "m", title := "s", artist := "x", link := "l",
           status := .TRANSLATED, created_at := 0, updated_at := 0 }])
      (musicStatusOf "m"
        (runMusicStage (.publish (fun _ => .ok
            { success := true, photoSent := true, audioSent := true }) 3)
          [{ id := "m", title := "s", artist := "x", link := "l",
             status := .TRANSLATED, created_at := 0,
             updated_at := 0 }])) = true := by
  constructor
  · exact pipeline_forward_only.1 (.review (fun _ => .ok []) 3)
      [{ id := "a", title := "t", link := "l", source := "",
         status := .PENDING_REVIEW, created_at := 0, updated_at := 0 }]
      (by decide) "a"
  · exact pipeline_forward_only.2
      (.publish (fun _ => .ok
        { success := true, photoSent := true, audioSent := true }) 3)
      [{ id := "m", title := "s", artist := "x", link := "l",
         status := .TRANSLATED, created_at := 0, updated_at := 0 }]
      (by decide) "m"

theorem sortByCreatedDesc_perm {α : Type} (created : α → Nat) (db : List α) :
    (sortByCreatedDesc created db).Perm db :=
  List.perm_insertionSort _ db

theorem sortByCreatedDesc_sorted {α : Type} (created : α → Nat) (db : List α) :
    List.Pairwise (fun a b => created b ≤ created a)
      (sortByCreatedDesc created db) := by
  unfold sortByCreatedDesc
  exact @List.sorted_insertionSort α (fun a b => created b ≤ created a)
    (fun a b => Nat.decLe (created b) (created a))
    ⟨fun a b => Nat.le_total (created b) (created a)⟩
    ⟨fun a b c h1 h2 => Nat.le_trans h2 h1⟩ db

theorem cleanupOldRecords_small (db : List MusicItem)
    (h : db.length < 10000) : cleanupOldRecords db = (db, 0) := by
  unfold cleanupOldRecords
  have hlen : (sortByCreatedDesc (fun r => r.created_at) db).length ≤ 9999 := by
    have := (sortByCreatedDesc_perm (fun r => MusicItem.created_at r) db).length_eq
    omega
  rw [List.get?_eq_getElem?, List.getElem?_eq_none hlen]

theorem cleanupOldRecords_cutoff (db : List MusicItem) (r : MusicItem)
    (hr : (sortByCreatedDesc (fun x => x.created_at) db).get? 9999 = some r) :
    (cleanupOldRecords db).1 =
        db.filter (fun x => !(decide (x.created_at < r.created_at))) ∧
      (cleanupOldRecords db).2 =
        (db.filter (fun x => decide (x.created_at < r.created_at))).length := by
  unfold cleanupOldRecords
  rw [hr]
  exact ⟨rfl, rfl⟩

theorem cleanupOldRecords_distinct (db : List MusicItem)
    (hlen : db.length = 10050)
    (hnodup : (db.map (fun x => x.created_at)).Nodup) :
    (cleanupOldRecords db).2 = 50 := by
  have hperm := sortByCreatedDesc_perm (fun x => MusicItem.created_at x) db
  have hslen : (sortByCreatedDesc (fun x => x.created_at) db).length = 10050 :=
    hperm.length_eq.trans hlen
  have h9999 : 9999 < (sortByCreatedDesc (fun x => x.created_at) db).length := by
    omega
  have hr : (sortByCreatedDesc (fun x => x.created_at) db).get? 9999 =
      some ((sortByCreatedDesc (fun x => x.created_at) db)[9999]) := by
    rw [List.get?_eq_getElem?, List.getElem?_eq_getElem h9999]
  unfold cleanupOldRecords
  rw [hr]
  dsimp only
  rw [← List.countP_eq_length_filter, ← hperm.countP_eq]
  have hsorted := sortByCreatedDesc_sorted (fun x => MusicItem.created_at x) db
  rw [List.pairwise_iff_getElem] at hsorted
  have hnods : ((sortByCreatedDesc (fun x => x.created_at) db).map
      (fun x => x.created_at)).Nodup :=
    ((hperm.map (fun x => MusicItem.created_at x)).nodup_iff).mpr hnodup
  have hdist : ∀ i j (hi : i < (sortByCreatedDesc (fun x => x.created_at) db).length)
      (hj : j < (sortByCreatedDesc (fun x => x.created_at) db).length),
      ((sortByCreatedDesc (fun x => x.created_at) db)[i]).created_at =
        ((sortByCreatedDesc (fun x => x.created_at) db)[j]).created_at →
      i = j := by
    intro i j hi hj h
    have hi2 : i < ((sortByCreatedDesc (fun x => x.created_at) db).map
        (fun x => x.created_at)).length := by simpa using hi
    have hj2 : j < ((sortByCreatedDesc (fun x => x.created_at) db).map
        (fun x => x.created_at)).length := by simpa using hj
    refine (@List.Nodup.getElem_inj_iff _ _ hnods i hi2 j hj2).mp ?_
    rw [List.getElem_map, List.getElem_map]
    exact h
  have hsplit : List.countP
      (fun x => decide (x.created_at <
        ((sortByCreatedDesc (fun x => x.created_at) db)[9999]).created_at))
      ((sortByCreatedDesc (fun x => x.created_at) db).take 10000 ++
        (sortByCreatedDesc (fun x => x.created_at) db).drop 10000) =
      List.countP
        (fun x => decide (x.created_at <
          ((sortByCreatedDesc (fun x => x.created_at) db)[9999]).created_at))
        (sortByCreatedDesc (fun x => x.created_at) db) := by
    rw [List.take_append_drop]
  rw [← hsplit, List.countP_append]
  have htake : List.countP
      (fun x => decide (x.created_at <
        ((sortByCreatedDesc (fun x => x.created_at) db)[9999]).created_at))
      ((sortByCreatedDesc (fun x => x.created_at) db).take 10000) = 0 := by
    rw [List.countP_eq_zero]
    intro a ha
    obtain ⟨i, hi, hget⟩ := List.mem_iff_getElem.mp ha
    have hi10 : i < 10000 ∧
        i < (sortByCreatedDesc (fun x => x.created_at) db).length := by
      rw [List.length_take] at hi
      omega
    rw [List.getElem_take] at hget
    simp only [decide_eq_true_eq]
    rw [← hget]
    rcases Nat.lt_or_ge i 9999 with hlt | hge
    · exact Nat.not_lt.mpr (hsorted i 9999 hi10.2 h9999 hlt)
    · have : i = 9999 := by omega
      subst this
      exact Nat.lt_irrefl _
  have hdrop : List.countP
      (fun x => decide (x.created_at <
        ((sortByCreatedDesc (fun x => x.created_at) db)[9999]).created_at))
      ((sortByCreatedDesc (fun x => x.created_at) db).drop 10000) =
      ((sortByCreatedDesc (fun x => x.created_at) db).drop 10000).length := by
    rw [List.countP_eq_length]
    intro a ha
    obtain ⟨k, hk, hget⟩ := List.mem_iff_getElem.mp ha
    rw [List.getElem_drop] at hget
    have hjlen : 10000 + k < (sortByCreatedDesc (fun x => x.created_at) db).length := by
      rw [List.length_drop] at hk
      omega
    simp only [decide_eq_true_eq]
    rw [← hget]
    have hle := hsorted 9999 (10000 + k) h9999 hjlen (by omega)
    have hne : ((sortByCreatedDesc (fun x => x.created_at) db)[10000 + k]).created_at ≠
        ((sortByCreatedDesc (fun x => x.created_at) db)[9999]).created_at := by
      intro h
      have := hdist (10000 + k) 9999 hjlen h9999 h
      omega
    omega
  rw [htake, hdrop, List.length_drop, hslen]

/-- C7 (corrected): `cleanupOldRecords` deletes exactly the music rows
whose `created_at` is strictly older than the `created_at` of the
10,000th-newest row and returns their number; with fewer than 10,000 rows
it deletes nothing and returns 0; and for a store of 10,050 rows it
deletes exactly the 50 oldest provided the creation timestamps are
pairwise distinct.  With ties at the cutoff timestamp the "exactly 50"
reading of the claim fails (see the counterexample), because the SQL
DELETE uses a strict comparison against the cutoff. -/
theorem cleanup_retention :
    (∀ db : List MusicItem, db.length < 10000 →
      cleanupOldRecords db = (db, 0)) ∧
    (∀ (db : List MusicItem) (r : MusicItem),
      (sortByCreatedDesc (fun x => x.created_at) db).get? 9999 = some r →
      (cleanupOldRecords db).1 =
          db.filter (fun x => !(decide (x.created_at < r.created_at))) ∧
        (cleanupOldRecords db).2 =
          (db.filter (fun x => decide (x.created_at < r.created_at))).length) ∧
    (∀ db : List MusicItem, db.length = 10050 →
      (db.map (fun x => x.created_at)).Nodup →
      (cleanupOldRecords db).2 = 50) :=
  ⟨cleanupOldRecords_small, cleanupOldRecords_cutoff, cleanupOldRecords_distinct⟩

/-- Witness for C7: on a concrete two-row store (fewer than 10,000 rows)
cleanup deletes nothing and returns 0. -/
theorem cleanup_retention_witness :
    cleanupOldRecords
        [{ id := "a", title := "t", artist := "x", link := "l",
           status := .PUBLISHED, created_at := 1, updated_at := 0 },
         { id := "b", title := "u", artist := "y", link := "m",
           status := .REJECTED, created_at := 2, updated_at := 0 }] =
      ([{ id := "a", title := "t", artist := "x", link := "l",
          status := .PUBLISHED, created_at := 1, updated_at := 0 },
        { id := "b", title := "u", artist := "y", link := "m",
          status := .REJECTED, created_at := 2, updated_at := 0 }], 0) :=
  cleanup_retention.1
    [{ id := "a", title := "t", artist := "x", link := "l",
       status := .PUBLISHED, created_at := 1, updated_at := 0 },
     { id := "b", title := "u", artist := "y", link := "m",
       status := .REJECTED, created_at := 2, updated_at := 0 }]
    (by decide)

/-- Counterexample to C7 as stated: a store of 10,050 rows that all share
one creation timestamp.  The 10,000th-newest timestamp equals every other
timestamp, the strict DELETE matches nothing, and cleanup removes 0 rows
instead of the claimed 50. -/
theorem cleanup_retention_counterexample :
    (List.replicate 10050
      ({ id := "x", title := "t", artist := "a", link := "l",
         status := .PUBLISHED, created_at := 5,
         updated_at := 5 } : MusicItem)).length = 10050 ∧
    cleanupOldRecords (List.replicate 10050
        ({ id := "x", title := "t", artist := "a", link := "l",
           status := .PUBLISHED, created_at := 5,
           updated_at := 5 } : MusicItem)) =
      (List.replicate 10050
        ({ id := "x", title := "t", artist := "a", link := "l",
           status := .PUBLISHED, created_at := 5,
           updated_at := 5 } : MusicItem), 0) := by
  constructor
  · exact List.length_replicate 10050 _
  · have hperm := sortByCreatedDesc_perm (fun x => MusicItem.created_at x)
      (List.replicate 10050
        ({ id := "x", title := "t", artist := "a", link := "l",
           status := .PUBLISHED, created_at := 5, updated_at := 5 } : MusicItem))
    have hsort : sortByCreatedDesc (fun x => x.created_at)
        (List.replicate 10050
          ({ id := "x", title := "t", artist := "a", link := "l",
             status := .PUBLISHED, created_at := 5,
             updated_at := 5 } : MusicItem)) =
        List.replicate 10050
          ({ id := "x", title := "t", artist := "a", link := "l",
             status := .PUBLISHED, created_at := 5,
             updated_at := 5 } : MusicItem) := by
      rw [List.eq_replicate_iff]
      refine ⟨hperm.length_eq.trans (List.length_replicate _ _), ?_⟩
      intro b hb
      exact List.eq_of_mem_replicate (hperm.subset hb)
    have hr : (sortByCreatedDesc (fun x => x.created_at)
        (List.replicate 10050
          ({ id := "x", title := "t", artist := "a", link := "l",
             status := .PUBLISHED, created_at := 5,
             updated_at := 5 } : MusicItem))).get? 9999 =
        some ({ id := "x", title := "t", artist := "a", link := "l",
                status := .PUBLISHED, created_at := 5,
                updated_at := 5 } : MusicItem) := by
      rw [hsort, List.get?_eq_getElem?,
        List.getElem?_eq_getElem (by rw [List.length_replicate]; omega),
        List.getElem_replicate]
    obtain ⟨hkeep, hcount⟩ := cleanupOldRecords_cutoff _ _ hr
    have e1 : (cleanupOldRecords (List.replicate 10050
        ({ id := "x", title := "t", artist := "a", link := "l",
           status := .PUBLISHED, created_at := 5,
           updated_at := 5 } : MusicItem))).1 =
        List.replicate 10050
          ({ id := "x", title := "t", artist := "a", link := "l",
             status := .PUBLISHED, created_at := 5,
             updated_at := 5 } : MusicItem) := by
      rw [hkeep, List.filter_replicate, if_pos (by decide)]
    have e2 : (cleanupOldRecords (List.replicate 10050
        ({ id := "x", title := "t", artist := "a", link := "l",
           status := .PUBLISHED, created_at := 5,
           updated_at := 5 } : MusicItem))).2 = 0 := by
      rw [hcount, List.filter_replicate, if_neg (by decide)]
      rfl
    exact Prod.ext_iff.mpr ⟨e1, e2⟩
